import Mathlib

/-!
Verification development for the grants-mcp repository.

This file gives a shallow embedding of the parts of the codebase that the
checked properties are about:

* `src/testing/compliance/checker.py` — compliance scoring and verdicts;
* `src/testing/risk/risk_analyzer.py` — security/business pattern scanning
  and weighted risk scoring;
* `src/testing/agents/orchestrator.py` — test-generation priorities;
* `src/src/mcp_server/tools/utils/error_handling.py` — error formatting and
  the retry-with-backoff decorator;
* `src/src/mcp_server/models/grants_schemas.py` — pydantic response models.

Python floats are modelled with exact rationals (`ℚ`); all the constants
involved (0.4, 0.2, 0.1, 0.05, 0.01, 0.8, 0.9, …) are exactly representable
in binary-coded decimal arithmetic only up to rounding, but every comparison
the code performs is far away from the rounding error of IEEE doubles, so the
rational model is faithful for the properties proved here.
-/

namespace Compliance

/-- The `ComplianceCategory` enum from `checker.py`. -/
inductive ComplianceCategory where
  | dataPrivacy
  | apiSecurity
  | financialRegulations
  | grantsCompliance
  | auditRequirements
  | accessibility
deriving DecidableEq, Repr

/-- The `ComplianceLevel` enum (violation severity) from `checker.py`. -/
inductive ComplianceLevel where
  | critical
  | high
  | medium
  | low
  | info
deriving DecidableEq, Repr

/-- The `ComplianceViolation` dataclass from `checker.py`. -/
structure ComplianceViolation where
  category : ComplianceCategory
  level : ComplianceLevel
  ruleId : String
  description : String
  location : String
  lineNumber : Option Nat
  remediation : String
  regulationReference : Option String
  automatedFixAvailable : Bool
deriving Repr, DecidableEq

/-- The per-severity penalty table of
`ComplianceChecker._calculate_compliance_score` (the `penalties` dict; every
severity is a key, so the `.get(..., 0.1)` default is never used). -/
def penalty : ComplianceLevel → ℚ
  | .critical => 0.4
  | .high => 0.2
  | .medium => 0.1
  | .low => 0.05
  | .info => 0.01

/-- The `ComplianceChecker._calculate_compliance_score`: returns `1.0` for an
empty list, otherwise `max(0.0, 1.0 - min(total_penalty, 1.0))`. -/
def calculateComplianceScore (violations : List ComplianceViolation) : ℚ :=
  if violations.isEmpty then 1
  else
    let totalPenalty := (violations.map (fun v => penalty v.level)).sum
    max 0 (1 - min totalPenalty 1)

/-- The `any(v.level == ComplianceLevel.CRITICAL for v in all_violations)` from
`ComplianceChecker.check_file`. -/
def hasCritical (violations : List ComplianceViolation) : Bool :=
  violations.any (fun v => v.level == ComplianceLevel.critical)

/-- The `is_compliant` verdict computed in `ComplianceChecker.check_file`:
`overall_score >= 0.8 and not any(v.level == CRITICAL ...)`. -/
def checkFileIsCompliant (violations : List ComplianceViolation) : Bool :=
  decide (calculateComplianceScore violations ≥ 0.8) && !hasCritical violations

/-- The `ComplianceChecker._generate_compliance_summary`: for each checked
category, the category is marked compliant iff it has zero critical
violations (the score threshold is not consulted). The Python dict is
modelled as an association list in insertion order. -/
def generateComplianceSummary (violations : List ComplianceViolation)
    (categories : List ComplianceCategory) : List (ComplianceCategory × Bool) :=
  categories.map (fun cat =>
    let categoryViolations := violations.filter (fun v => v.category == cat)
    let criticalViolations := categoryViolations.filter
      (fun v => v.level == ComplianceLevel.critical)
    (cat, criticalViolations.length == 0))

/-- Spec-side formula for the overall score, written exactly as the spec
phrases it: 1.0 minus the summed penalties, clamped so it never drops below
0.0. Used to compare against `calculateComplianceScore`. -/
def claimComplianceScore (violations : List ComplianceViolation) : ℚ :=
  max 0 (1 - (violations.map (fun v => penalty v.level)).sum)

/-- Spec-side per-category rule claimed for the compliance summary: the
file-level verdict restricted to the category's violations (score ≥ 0.8 and
zero critical violations in the category). Used to compare against
`generateComplianceSummary`. -/
def claimedCategoryCompliant (violations : List ComplianceViolation)
    (cat : ComplianceCategory) : Bool :=
  let categoryViolations := violations.filter (fun v => v.category == cat)
  checkFileIsCompliant categoryViolations

/-- A sample violation record with the given category and severity
(the non-scoring fields play no role in scores or verdicts). -/
def sampleViolation (cat : ComplianceCategory) (lvl : ComplianceLevel) :
    ComplianceViolation :=
  { category := cat
    level := lvl
    ruleId := "PII-002"
    description := "sample"
    location := "f.py"
    lineNumber := none
    remediation := "fix"
    regulationReference := none
    automatedFixAvailable := false }

end Compliance

namespace Compliance

theorem penalty_nonneg (lvl : ComplianceLevel) : 0 ≤ penalty lvl := by
  cases lvl <;> norm_num [penalty]

theorem one_sub_min_eq_max (t : ℚ) : max 0 (1 - min t 1) = max 0 (1 - t) := by
  rcases le_total t 1 with h | h
  · rw [min_eq_left h]
  · rw [min_eq_right h, sub_self, max_eq_left (by linarith), eq_comm]
    exact max_eq_left (by linarith)

/-- Claim C1: The compliance score equals 1.0 minus the summed per-violation
penalties clamped at 0.0 from below (in particular 1.0 on the empty list);
the `is_compliant` flag holds iff the score is ≥ 0.8 and there is no
critical violation; and a single critical violation scores 0.6 and is not
compliant. -/
theorem compliance_score_formula_and_verdict (vs : List ComplianceViolation) :
    calculateComplianceScore vs = claimComplianceScore vs
    ∧ calculateComplianceScore [] = 1
    ∧ (checkFileIsCompliant vs = true ↔
        calculateComplianceScore vs ≥ 0.8 ∧ ∀ v ∈ vs, v.level ≠ ComplianceLevel.critical)
    ∧ (∀ v : ComplianceViolation, v.level = ComplianceLevel.critical →
        calculateComplianceScore [v] = 0.6 ∧ checkFileIsCompliant [v] = false) := by
  refine ⟨?_, by simp [calculateComplianceScore], ?_, ?_⟩
  · unfold calculateComplianceScore claimComplianceScore
    by_cases hv : vs.isEmpty
    · simp [hv, List.isEmpty_iff.mp hv]
    · rw [if_neg hv]
      show max 0 (1 - min ((vs.map (fun v => penalty v.level)).sum) 1) = _
      exact one_sub_min_eq_max _
  · unfold checkFileIsCompliant hasCritical
    simp [List.any_eq_true, decide_eq_true_eq]
  · intro v hv
    constructor
    · simp only [calculateComplianceScore, List.isEmpty_cons, List.map_cons,
        List.map_nil, List.sum_cons, List.sum_nil, hv, penalty]
      norm_num
    · simp only [checkFileIsCompliant, hasCritical, List.any_cons, List.any_nil, hv,
        calculateComplianceScore, List.isEmpty_cons, List.map_cons, List.map_nil,
        List.sum_cons, List.sum_nil, penalty]
      norm_num

/-- Witness for C1 at a concrete input: one critical violation scores 0.6
and is judged non-compliant. -/
theorem compliance_score_formula_and_verdict_witness :
    calculateComplianceScore [sampleViolation ComplianceCategory.dataPrivacy ComplianceLevel.critical] = 0.6
    ∧ checkFileIsCompliant [sampleViolation ComplianceCategory.dataPrivacy ComplianceLevel.critical] = false :=
  (compliance_score_formula_and_verdict
    [sampleViolation ComplianceCategory.dataPrivacy ComplianceLevel.critical]).2.2.2
    (sampleViolation ComplianceCategory.dataPrivacy ComplianceLevel.critical) rfl

/-- Five high-severity violations in the data-privacy category (and no
critical ones): their summed penalty is 1.0, so the category-restricted
score is 0.0. -/
def fiveHighPrivacy : List ComplianceViolation :=
  [sampleViolation ComplianceCategory.dataPrivacy ComplianceLevel.high,
   sampleViolation ComplianceCategory.dataPrivacy ComplianceLevel.high,
   sampleViolation ComplianceCategory.dataPrivacy ComplianceLevel.high,
   sampleViolation ComplianceCategory.dataPrivacy ComplianceLevel.high,
   sampleViolation ComplianceCategory.dataPrivacy ComplianceLevel.high]

/-- Claim C7, counterexample: On five high-severity data-privacy violations the
summary marks the category compliant (`true`) even though the claimed rule —
the file-level verdict restricted to the category's violations (score ≥ 0.8
and no critical violation) — evaluates to `false`: the per-category boolean
is not derived by the same rule as the file-level verdict. -/
theorem category_summary_not_file_rule :
    generateComplianceSummary fiveHighPrivacy [ComplianceCategory.dataPrivacy]
      = [(ComplianceCategory.dataPrivacy, true)]
    ∧ claimedCategoryCompliant fiveHighPrivacy ComplianceCategory.dataPrivacy = false := by
  constructor
  · decide
  · have hfilter : fiveHighPrivacy.filter
        (fun v => v.category == ComplianceCategory.dataPrivacy) = fiveHighPrivacy := by decide
    have hscore : calculateComplianceScore fiveHighPrivacy = 0 := by
      unfold calculateComplianceScore
      rw [if_neg (by decide)]
      show max 0 (1 - min ((fiveHighPrivacy.map (fun v => penalty v.level)).sum) 1) = 0
      have hsum : (fiveHighPrivacy.map (fun v => penalty v.level)).sum = 1 := by
        norm_num [fiveHighPrivacy, sampleViolation, penalty]
      rw [hsum]
      norm_num
    unfold claimedCategoryCompliant checkFileIsCompliant
    show (decide (calculateComplianceScore (fiveHighPrivacy.filter fun v =>
        v.category == ComplianceCategory.dataPrivacy) ≥ 0.8)
      && !hasCritical (fiveHighPrivacy.filter fun v =>
        v.category == ComplianceCategory.dataPrivacy)) = false
    rw [hfilter, hscore]
    norm_num

theorem filter_critical_length_eq_any (p q : ComplianceViolation → Bool)
    (vs : List ComplianceViolation) :
    (((vs.filter p).filter q).length == 0 : Bool)
      = !(vs.any (fun v => p v && q v)) := by
  induction vs with
  | nil => rfl
  | cons v vs ih =>
    by_cases hp : p v = true <;> by_cases hq : q v = true <;>
      simp [List.filter_cons, List.any_cons, hp, hq, ← ih]

/-- Claim C7, amended: Every per-category boolean in the compliance summary is
true iff the category contains zero critical-level violations; the 0.8 score
threshold is not applied per category, so e.g. the five-high-violation
category is marked compliant. -/
theorem category_summary_amended (vs : List ComplianceViolation)
    (cats : List ComplianceCategory) (cat : ComplianceCategory) (b : Bool)
    (hmem : (cat, b) ∈ generateComplianceSummary vs cats) :
    b = !(vs.any (fun v => v.category == cat && v.level == ComplianceLevel.critical)) := by
  unfold generateComplianceSummary at hmem
  obtain ⟨c, _, heq⟩ := List.mem_map.mp hmem
  obtain ⟨rfl, rfl⟩ : c = cat ∧ _ = b := ⟨congrArg Prod.fst heq, congrArg Prod.snd heq⟩
  exact filter_critical_length_eq_any _ _ vs

/-- Witness for the amended C7 at a concrete input: the five-high-violation
category is marked compliant because it holds no critical violation. -/
theorem category_summary_amended_witness :
    true = !(fiveHighPrivacy.any (fun v =>
      v.category == ComplianceCategory.dataPrivacy
        && v.level == ComplianceLevel.critical)) :=
  category_summary_amended fiveHighPrivacy [ComplianceCategory.dataPrivacy]
    ComplianceCategory.dataPrivacy true (by decide)

end Compliance

namespace Risk

/-- The `RiskLevel` enum from `risk_analyzer.py`. -/
inductive RiskLevel where
  | low
  | medium
  | high
  | critical
deriving DecidableEq, Repr

/-- The `RiskCategory` enum from `risk_analyzer.py`. -/
inductive RiskCategory where
  | security
  | compliance
  | businessLogic
  | performance
  | integration
  | dataIntegrity
deriving DecidableEq, Repr

/-- The `RiskFinding` dataclass from `risk_analyzer.py`. -/
structure RiskFinding where
  category : RiskCategory
  level : RiskLevel
  description : String
  location : String
  lineNumber : Option Nat
  mitigation : String
  score : ℚ
deriving Repr

/-!
A small matching engine for the regular expressions used by
`risk_analyzer.py`. Every pattern in that file is a plain concatenation of
single-character classes with `?`/`*`/`+` multiplicities (the one
alternation, `\.\./|\.\.\/`, has two branches matching the same three
characters `../`), so a pattern is modelled as a list of atoms, each a
character predicate with a multiplicity (`+` is desugared as one mandatory
atom followed by a starred one). Matching is existential with full
backtracking, like `re.search` truthiness.
-/

/-- Multiplicity of a pattern atom (`+` is desugared into `one` then `star`). -/
inductive Mult where
  | one
  | opt
  | star
deriving Repr

/-- One regex atom: a character class with a multiplicity. -/
structure Atom where
  m : Mult
  test : Char → Bool

/-- A regex as `risk_analyzer.py` uses them: a concatenation of atoms. -/
abbrev Pat := List Atom

/-- Backtracking matcher worker. Each recursive call strictly decreases
`p.length + cs.length`, so running it with that sum as fuel is total and
never exhausts the fuel on a reachable state; the fuel makes the recursion
structural (hence kernel-computable). -/
def matchAtomsFuel : Nat → Pat → List Char → Bool
  | 0, p, _ => p.isEmpty
  | _ + 1, [], _ => true
  | fuel + 1, a :: as, cs =>
    match a.m with
    | Mult.one =>
      match cs with
      | [] => false
      | c :: cs2 => a.test c && matchAtomsFuel fuel as cs2
    | Mult.opt =>
      matchAtomsFuel fuel as cs
        || (match cs with
            | [] => false
            | c :: cs2 => a.test c && matchAtomsFuel fuel as cs2)
    | Mult.star =>
      matchAtomsFuel fuel as cs
        || (match cs with
            | [] => false
            | c :: cs2 => a.test c && matchAtomsFuel fuel (a :: as) cs2)

/-- Does some prefix of `cs` match the atom list? `matchAtoms p cs = true`
iff some way of expanding the multiplicities matches a prefix of `cs`
(which is what `re.search` needs at a position). -/
def matchAtoms (p : Pat) (cs : List Char) : Bool :=
  matchAtomsFuel (p.length + cs.length) p cs

/-- The `re.search(pat, s)` truthiness: the pattern matches at some position. -/
def searchChars (p : Pat) : List Char → Bool
  | [] => matchAtoms p []
  | c :: cs2 => matchAtoms p (c :: cs2) || searchChars p cs2

/-- Python's `\s` class (ASCII whitespace: space, tab, newline, carriage
return, vertical tab, form feed). -/
def isPySpace (c : Char) : Bool :=
  c == ' ' || c == '\t' || c == '\n' || c == '\r'
    || c == Char.ofNat 11 || c == Char.ofNat 12

/-- Regex `.` (any character except newline). -/
def isDotChar (c : Char) : Bool := c != '\n'

/-- The `["\']` class: a double or single quote. -/
def isQuoteChar (c : Char) : Bool := c == '"' || c == Char.ofNat 39

/-- The `[^"\']` class. -/
def isNotQuoteChar (c : Char) : Bool := !isQuoteChar c

/-- A literal character (case-sensitive). -/
def lit (c : Char) : Atom := ⟨Mult.one, fun d => d == c⟩

/-- A literal character under `re.IGNORECASE` (argument given lowercase). -/
def litCI (c : Char) : Atom := ⟨Mult.one, fun d => d.toLower == c⟩

/-- Literal string (case-sensitive). -/
def strPat (s : String) : Pat := s.toList.map lit

/-- Literal string under `re.IGNORECASE` (given in lowercase). -/
def strPatCI (s : String) : Pat := s.toList.map litCI

/-- The `\s*`. -/
def wsStar : Pat := [⟨Mult.star, isPySpace⟩]

/-- The `.*`. -/
def dotStar : Pat := [⟨Mult.star, isDotChar⟩]

/-- The `["\']`. -/
def quotePat : Pat := [⟨Mult.one, isQuoteChar⟩]

/-- The `[^"\']+`. -/
def notQuotePlus : Pat := [⟨Mult.one, isNotQuoteChar⟩, ⟨Mult.star, isNotQuoteChar⟩]

/-- The `\d+`. -/
def digitPlus : Pat := [⟨Mult.one, Char.isDigit⟩, ⟨Mult.star, Char.isDigit⟩]

/-- The `sql_injection_patterns` of `SecurityPatternDetector` (searched with
`re.IGNORECASE`): `\.execute\s*\(\s*["\'].*%.*["\']`, `f["\']\s*SELECT.*\{.*\}`,
`\.format\s*\(\s*\).*SELECT`. -/
def sqlInjectionPatterns : List Pat :=
  [ [lit '.'] ++ strPatCI "execute" ++ wsStar ++ [lit '('] ++ wsStar
      ++ quotePat ++ dotStar ++ [lit '%'] ++ dotStar ++ quotePat,
    [litCI 'f'] ++ quotePat ++ wsStar ++ strPatCI "select" ++ dotStar
      ++ [lit (Char.ofNat 123)] ++ dotStar ++ [lit (Char.ofNat 125)],
    [lit '.'] ++ strPatCI "format" ++ wsStar ++ [lit '('] ++ wsStar
      ++ [lit ')'] ++ dotStar ++ strPatCI "select" ]

/-- The `xss_patterns` (searched with `re.IGNORECASE`):
`\.innerHTML\s*=`, `document\.write\s*\(`, `eval\s*\(`. -/
def xssPatterns : List Pat :=
  [ [lit '.'] ++ strPatCI "innerhtml" ++ wsStar ++ [lit '='],
    strPatCI "document" ++ [lit '.'] ++ strPatCI "write" ++ wsStar ++ [lit '('],
    strPatCI "eval" ++ wsStar ++ [lit '('] ]

/-- The `path_traversal_patterns` (searched case-sensitively):
`\.\./|\.\.\/` (both alternatives denote the literal `../`) and
`os\.path\.join.*\.\.`. -/
def pathTraversalPatterns : List Pat :=
  [ strPat "../",
    strPat "os.path.join" ++ dotStar ++ strPat ".." ]

/-- One `hardcoded_secrets_patterns` entry
`NAME\s*=\s*["\'][^"\']+["\']` (searched with `re.IGNORECASE`). -/
def secretPattern (name : String) : Pat :=
  strPatCI name ++ wsStar ++ [lit '='] ++ wsStar
    ++ quotePat ++ notQuotePlus ++ quotePat

/-- The four `hardcoded_secrets_patterns`: password, api_key, secret, token. -/
def hardcodedSecretsPatterns : List Pat :=
  [secretPattern "password", secretPattern "api_key",
   secretPattern "secret", secretPattern "token"]

/-- The `financial_patterns` of `_detect_grants_security_issues` (searched
with `re.IGNORECASE`): `amount\s*=\s*["\']?\d+`, `ssn\s*=`, `tax_id\s*=`. -/
def grantsFinancialPatterns : List Pat :=
  [ strPatCI "amount" ++ wsStar ++ [lit '='] ++ wsStar
      ++ [⟨Mult.opt, isQuoteChar⟩] ++ digitPlus,
    strPatCI "ssn" ++ wsStar ++ [lit '='],
    strPatCI "tax_id" ++ wsStar ++ [lit '='] ]

/-- Python `content.split('\n')`: split a character list at every separator,
keeping empty pieces. -/
def splitCharsOn (sep : Char) : List Char → List (List Char)
  | [] => [[]]
  | c :: cs =>
    if c == sep then [] :: splitCharsOn sep cs
    else
      match splitCharsOn sep cs with
      | [] => [[c]]
      | l :: ls => (c :: l) :: ls

/-- The numbered lines of a content string, as `enumerate(lines, 1)`. -/
def numberedLines (content : String) : List (Nat × List Char) :=
  (splitCharsOn '\n' content.toList).enum.map (fun p => (p.1 + 1, p.2))

/-- The `SecurityPatternDetector._detect_sql_injection`. -/
def detectSqlInjection (content filePath : String) : List RiskFinding :=
  (numberedLines content).flatMap (fun p =>
    sqlInjectionPatterns.filterMap (fun pat =>
      if searchChars pat p.2 then
        some { category := RiskCategory.security
               level := RiskLevel.high
               description := "Potential SQL injection vulnerability"
               location := filePath ++ ":" ++ toString p.1
               lineNumber := some p.1
               mitigation := "Use parameterized queries or ORM methods"
               score := 0.8 }
      else none))

/-- The `SecurityPatternDetector._detect_xss`. -/
def detectXss (content filePath : String) : List RiskFinding :=
  (numberedLines content).flatMap (fun p =>
    xssPatterns.filterMap (fun pat =>
      if searchChars pat p.2 then
        some { category := RiskCategory.security
               level := RiskLevel.medium
               description := "Potential XSS vulnerability"
               location := filePath ++ ":" ++ toString p.1
               lineNumber := some p.1
               mitigation := "Sanitize user input and use safe DOM manipulation"
               score := 0.6 }
      else none))

/-- The `SecurityPatternDetector._detect_path_traversal`. -/
def detectPathTraversal (content filePath : String) : List RiskFinding :=
  (numberedLines content).flatMap (fun p =>
    pathTraversalPatterns.filterMap (fun pat =>
      if searchChars pat p.2 then
        some { category := RiskCategory.security
               level := RiskLevel.medium
               description := "Potential path traversal vulnerability"
               location := filePath ++ ":" ++ toString p.1
               lineNumber := some p.1
               mitigation := "Validate and sanitize file paths"
               score := 0.7 }
      else none))

/-- The `SecurityPatternDetector._detect_hardcoded_secrets`. -/
def detectHardcodedSecrets (content filePath : String) : List RiskFinding :=
  (numberedLines content).flatMap (fun p =>
    hardcodedSecretsPatterns.filterMap (fun pat =>
      if searchChars pat p.2 then
        some { category := RiskCategory.security
               level := RiskLevel.high
               description := "Hardcoded credentials detected"
               location := filePath ++ ":" ++ toString p.1
               lineNumber := some p.1
               mitigation := "Use environment variables or secure key management"
               score := 0.9 }
      else none))

/-- The `SecurityPatternDetector._detect_grants_security_issues`. -/
def detectGrantsSecurityIssues (content filePath : String) : List RiskFinding :=
  (numberedLines content).flatMap (fun p =>
    grantsFinancialPatterns.filterMap (fun pat =>
      if searchChars pat p.2 then
        some { category := RiskCategory.dataIntegrity
               level := RiskLevel.high
               description := "Potential financial data security issue"
               location := filePath ++ ":" ++ toString p.1
               lineNumber := some p.1
               mitigation := "Encrypt sensitive financial data"
               score := 0.8 }
      else none))

/-- The `SecurityPatternDetector.scan_content`: the five detectors concatenated
in source order. -/
def scanContent (content filePath : String) : List RiskFinding :=
  detectSqlInjection content filePath
    ++ detectXss content filePath
    ++ detectPathTraversal content filePath
    ++ detectHardcodedSecrets content filePath
    ++ detectGrantsSecurityIssues content filePath

/-- Node kinds of the Python AST that `ComplexityAnalyzer` distinguishes;
every other node is `kOther`. -/
inductive PyKind where
  | kIf
  | kWhile
  | kFor
  | kTry
  | kWith
  | kFunctionDef
  | kAsyncFunctionDef
  | kClassDef
  | kOther
deriving DecidableEq, Repr

/-- A Python AST, abstracted to the node kinds `ComplexityAnalyzer` looks at
and the child structure that `ast.walk` / `ast.iter_child_nodes` traverse. -/
inductive PyAst where
  | node (kind : PyKind) (children : List PyAst)
deriving Repr

/-- The result of `ast.parse(content)`: a tree, or a `SyntaxError` carrying
`str(e)` and `e.lineno`. `ast.parse` itself is Python's parser (external);
its result is passed in. -/
inductive ParseResult where
  | ok (tree : PyAst)
  | syntaxError (msg : String) (lineno : Option Nat)
deriving Repr

/-- Number of nodes in a forest (roots included, as `ast.walk` yields every
node) whose kind satisfies `p`. -/
def countKindList (p : PyKind → Bool) : List PyAst → Nat
  | [] => 0
  | PyAst.node k cs :: rest =>
    (if p k then 1 else 0) + countKindList p cs + countKindList p rest

/-- Number of nodes of the tree (itself included) whose kind satisfies `p`. -/
def countKind (p : PyKind → Bool) (t : PyAst) : Nat :=
  countKindList p [t]

/-- The `_calculate_max_nesting.calculate_depth` over a forest of siblings whose
parent sits at depth `d`: the maximum over all nodes of the node's depth,
where a node's depth is its parent's depth plus one when the node is one of
the `depth_increasing_nodes` (every kind except `kOther`: If, While, For,
Try, With, FunctionDef, AsyncFunctionDef, ClassDef). -/
def maxNestingList : List PyAst → Nat → Nat
  | [], _ => 0
  | PyAst.node k cs :: rest, d =>
    let dd := if k == PyKind.kOther then d else d + 1
    max (max dd (maxNestingList cs dd)) (maxNestingList rest d)

/-- The `_calculate_max_nesting`: the root is visited at depth 0 (contributing
`max(0, 0)`), its children at depth 0 or 1 according to their kind. -/
def maxNestingOf : PyAst → Nat
  | PyAst.node _ cs => max 0 (maxNestingList cs 0)

/-- The `cyclomatic` metric of `_calculate_complexity_metrics`: base 1 plus
one per If/While/For/Try node. -/
def cyclomaticOf (t : PyAst) : Nat :=
  1 + countKind (fun k =>
    k == PyKind.kIf || k == PyKind.kWhile || k == PyKind.kFor || k == PyKind.kTry) t

/-- The `ComplexityAnalyzer.analyze_python_complexity`: threshold findings from
the metrics, or a single critical finding on a `SyntaxError`. -/
def analyzePythonComplexity (parsed : ParseResult) (filePath : String) :
    List RiskFinding :=
  match parsed with
  | .ok tree =>
    let cyclomatic := cyclomaticOf tree
    let maxNesting := maxNestingOf tree
    let functionCount := countKind (fun k => k == PyKind.kFunctionDef) tree
    (if cyclomatic > 10 then
      [{ category := RiskCategory.businessLogic
         level := RiskLevel.medium
         description := s!"High cyclomatic complexity: {cyclomatic}"
         location := filePath
         lineNumber := none
         mitigation := "Refactor complex functions into smaller, testable units"
         score := min ((cyclomatic : ℚ) / 20) 1 }]
     else [])
    ++ (if maxNesting > 4 then
      [{ category := RiskCategory.businessLogic
         level := RiskLevel.medium
         description := s!"Deep nesting level: {maxNesting}"
         location := filePath
         lineNumber := none
         mitigation := "Reduce nesting with early returns and guard clauses"
         score := min ((maxNesting : ℚ) / 8) 1 }]
     else [])
    ++ (if functionCount > 20 then
      [{ category := RiskCategory.businessLogic
         level := RiskLevel.low
         description := s!"High function count: {functionCount}"
         location := filePath
         lineNumber := none
         mitigation := "Consider splitting into multiple modules"
         score := 0.3 }]
     else [])
  | .syntaxError msg lineno =>
    [{ category := RiskCategory.businessLogic
       level := RiskLevel.critical
       description := "Syntax error in code: " ++ msg
       location := filePath
       lineNumber := lineno
       mitigation := "Fix syntax errors"
       score := 1.0 }]

/-- Does `needle` start `hay`? -/
def startsWithChars : List Char → List Char → Bool
  | [], _ => true
  | _ :: _, [] => false
  | a :: as, b :: bs => a == b && startsWithChars as bs

/-- Python's substring test `needle in hay`. -/
def containsChars (needle : List Char) : List Char → Bool
  | [] => startsWithChars needle []
  | c :: cs => startsWithChars needle (c :: cs) || containsChars needle cs

/-- The `critical_modules` set of `BusinessImpactAnalyzer`. The Python `for`
iterates a `set` in unspecified order and breaks at the first hit; the order
below is the literal's order. The iteration order can only influence which
module name is interpolated into the finding's description when several
match, never whether a finding is produced or its category/level/score. -/
def criticalModules : List String :=
  ["financial_calculations", "grant_matching", "eligibility_checking",
   "payment_processing", "audit_logging", "compliance_reporting"]

/-- The `high_impact_patterns` of `BusinessImpactAnalyzer` (searched on the
lowercased content): `calculate.*amount`, `process.*payment`,
`validate.*eligibility`, `grant.*matching`, `audit.*log`,
`compliance.*check`. -/
def highImpactPatterns : List Pat :=
  [ strPat "calculate" ++ dotStar ++ strPat "amount",
    strPat "process" ++ dotStar ++ strPat "payment",
    strPat "validate" ++ dotStar ++ strPat "eligibility",
    strPat "grant" ++ dotStar ++ strPat "matching",
    strPat "audit" ++ dotStar ++ strPat "log",
    strPat "compliance" ++ dotStar ++ strPat "check" ]

/-- The `calculation_patterns` of `_analyze_grants_business_logic` (searched
with `re.IGNORECASE`): `award_amount\s*[=+\-*/%]`,
`eligibility\s*=\s*.*calculate`, `score\s*[=+\-*/%]`,
`match\s*=\s*.*calculate`. -/
def grantsCalculationPatterns : List Pat :=
  [ strPatCI "award_amount" ++ wsStar
      ++ [⟨Mult.one, fun c => c == '=' || c == '+' || c == '-' || c == '*'
            || c == '/' || c == Char.ofNat 37⟩],
    strPatCI "eligibility" ++ wsStar ++ [lit '='] ++ wsStar
      ++ dotStar ++ strPatCI "calculate",
    strPatCI "score" ++ wsStar
      ++ [⟨Mult.one, fun c => c == '=' || c == '+' || c == '-' || c == '*'
            || c == '/' || c == Char.ofNat 37⟩],
    strPatCI "match" ++ wsStar ++ [lit '='] ++ wsStar
      ++ dotStar ++ strPatCI "calculate" ]

/-- The `BusinessImpactAnalyzer._analyze_grants_business_logic`. -/
def analyzeGrantsBusinessLogic (content filePath : String) : List RiskFinding :=
  grantsCalculationPatterns.filterMap (fun pat =>
    if searchChars pat content.toList then
      some { category := RiskCategory.businessLogic
             level := RiskLevel.high
             description := "Critical grants calculation logic detected"
             location := filePath
             lineNumber := none
             mitigation := "Implement comprehensive calculation tests and validation"
             score := 0.9 }
    else none)

/-- The `BusinessImpactAnalyzer.analyze_business_impact`: at most one
critical-module finding (the loop breaks at the first matching module, after
lowercasing the path and stripping `_` and `/` from it and `_` from the
module name), then one finding per high-impact pattern found in the
lowercased content, then the grants business-logic findings. -/
def analyzeBusinessImpact (content filePath : String) : List RiskFinding :=
  let pathNorm := (filePath.toList.map Char.toLower).filter
    (fun c => c != '_' && c != '/')
  let moduleFindings :=
    match criticalModules.find? (fun m =>
      containsChars (m.toList.filter (fun c => c != '_')) pathNorm) with
    | some m =>
      [{ category := RiskCategory.businessLogic
         level := RiskLevel.high
         description := s!"Changes in critical business module: {m}"
         location := filePath
         lineNumber := none
         mitigation := "Require additional testing and code review"
         score := 0.8 }]
    | none => []
  let contentLower := (content.toList.map Char.toLower)
  let impactFindings := highImpactPatterns.filterMap (fun pat =>
    if searchChars pat contentLower then
      some { category := RiskCategory.businessLogic
             level := RiskLevel.medium
             description := "High-impact business logic pattern detected"
             location := filePath
             lineNumber := none
             mitigation := "Ensure comprehensive test coverage"
             score := 0.6 }
    else none)
  moduleFindings ++ impactFindings ++ analyzeGrantsBusinessLogic content filePath

/-- The risk scoring weights; `RiskAnalyzer.__init__` reads them from the
config with these defaults. -/
structure RiskWeights where
  security : ℚ
  complexity : ℚ
  businessImpact : ℚ
deriving Repr

/-- The default weights: security 0.4, complexity 0.2, business impact 0.4. -/
def defaultWeights : RiskWeights :=
  { security := 0.4, complexity := 0.2, businessImpact := 0.4 }

/-- The severity weight of `_calculate_category_score` (the `weight = 1.0`
default is only reachable for LOW, which also assigns 1.0). -/
def levelWeight : RiskLevel → ℚ
  | RiskLevel.critical => 4
  | RiskLevel.high => 3
  | RiskLevel.medium => 2
  | RiskLevel.low => 1

/-- The `RiskAnalyzer._calculate_category_score`: 0 when the category has no
findings, else the mean of severity-weighted scores capped at 1.0. -/
def calculateCategoryScore (findings : List RiskFinding) (cat : RiskCategory) : ℚ :=
  let categoryFindings := findings.filter (fun f => f.category == cat)
  if categoryFindings.isEmpty then 0
  else
    min ((categoryFindings.map (fun f => f.score * levelWeight f.level)).sum
          / categoryFindings.length) 1

/-- The `RiskAnalyzer._calculate_grants_specific_score`: mean score of findings
whose description mentions grant/financial/calculation/eligibility, capped
at 1.0 (0 when there are none). -/
def calculateGrantsSpecificScore (findings : List RiskFinding) : ℚ :=
  let grantsFindings := findings.filter (fun f =>
    ["grant", "financial", "calculation", "eligibility"].any (fun kw =>
      containsChars kw.toList (f.description.toList.map Char.toLower)))
  if grantsFindings.isEmpty then 0
  else min ((grantsFindings.map (fun f => f.score)).sum / grantsFindings.length) 1

/-- The `RiskAnalyzer._determine_risk_level`: ≥0.8 critical, ≥0.6 high,
≥0.4 medium, else low. -/
def determineRiskLevel (score : ℚ) : RiskLevel :=
  if score ≥ 0.8 then RiskLevel.critical
  else if score ≥ 0.6 then RiskLevel.high
  else if score ≥ 0.4 then RiskLevel.medium
  else RiskLevel.low

/-- The `RiskAssessment` dataclass (`timestamp` and the advisory
`recommendations` list are omitted: no checked property mentions them). -/
structure RiskAssessment where
  filePath : String
  overallScore : ℚ
  level : RiskLevel
  findings : List RiskFinding
  businessImpactScore : ℚ
  securityScore : ℚ
  complexityScore : ℚ
  grantsSpecificScore : ℚ
deriving Repr

/-- The `Path(file_path).suffix == '.py'`: the extension of the final path
component is `.py` (a leading-dot-only name like `.py` has no extension). -/
def pathSuffixIsPy (path : String) : Bool :=
  let base := (splitCharsOn '/' path.toList).getLastD []
  let parts := splitCharsOn '.' base
  match parts with
  | [] => false
  | [_] => false
  | [[], _] => false
  | _ => (parts.getLastD []) == ['p', 'y']

/-- The `RiskAnalyzer.analyze_change`. The file read is modelled by passing
`content` directly, and `parsed` is the outcome of `ast.parse(content)`
(Python's parser is external to the model); the source consults it only when
the file suffix is `.py`. The change event contributes `filePath` and
`complexity_score`. -/
def analyzeChange (w : RiskWeights) (filePath content : String)
    (parsed : ParseResult) (changeComplexityScore : ℚ) : RiskAssessment :=
  let securityFindings := scanContent content filePath
  let complexityFindings :=
    if pathSuffixIsPy filePath then analyzePythonComplexity parsed filePath else []
  let businessFindings := analyzeBusinessImpact content filePath
  let allFindings := securityFindings ++ complexityFindings ++ businessFindings
  let securityScore := calculateCategoryScore securityFindings RiskCategory.security
  let complexityScore := changeComplexityScore / 10
  let businessScore := calculateCategoryScore businessFindings RiskCategory.businessLogic
  let grantsSpecificScore := calculateGrantsSpecificScore allFindings
  let overallScore :=
    securityScore * w.security + complexityScore * w.complexity
      + businessScore * w.businessImpact
  { filePath := filePath
    overallScore := overallScore
    level := determineRiskLevel overallScore
    findings := allFindings
    businessImpactScore := businessScore
    securityScore := securityScore
    complexityScore := complexityScore
    grantsSpecificScore := grantsSpecificScore }

/-- A file whose three lines each hold one distinct hardcoded-secret pattern
and nothing else risky. -/
def secretContent : String :=
  "password = \"a\"\napi_key = \"b\"\ntoken = \"c\""

end Risk

namespace Risk

theorem mem_detectHardcodedSecrets (content filePath : String) (f : RiskFinding)
    (hf : f ∈ detectHardcodedSecrets content filePath) :
    f.category = RiskCategory.security ∧ f.level = RiskLevel.high ∧ f.score = 0.9 := by
  unfold detectHardcodedSecrets at hf
  simp only [List.mem_flatMap, List.mem_filterMap] at hf
  obtain ⟨p, _, pat, _, hpat⟩ := hf
  split at hpat
  · cases hpat
    exact ⟨rfl, rfl, rfl⟩
  · cases hpat

theorem mem_detectGrantsSecurityIssues (content filePath : String) (f : RiskFinding)
    (hf : f ∈ detectGrantsSecurityIssues content filePath) :
    f.category = RiskCategory.dataIntegrity := by
  unfold detectGrantsSecurityIssues at hf
  simp only [List.mem_flatMap, List.mem_filterMap] at hf
  obtain ⟨p, _, pat, _, hpat⟩ := hf
  split at hpat
  · cases hpat
    rfl
  · cases hpat

theorem weighted_sum_const (c : ℚ) (fs : List RiskFinding)
    (h : ∀ f ∈ fs, f.score * levelWeight f.level = c) :
    (fs.map (fun f => f.score * levelWeight f.level)).sum = c * fs.length := by
  induction fs with
  | nil => simp
  | cons f fs ih =>
    simp only [List.map_cons, List.sum_cons, List.length_cons,
      h f (by simp), ih (fun g hg => h g (by simp [hg]))]
    push_cast
    ring

theorem categoryScore_of_not_mem (fs : List RiskFinding) (cat : RiskCategory)
    (h : ∀ f ∈ fs, f.category ≠ cat) :
    calculateCategoryScore fs cat = 0 := by
  unfold calculateCategoryScore
  have hnil : fs.filter (fun f => f.category == cat) = [] := by
    rw [List.filter_eq_nil_iff]
    intro f hf
    simp [h f hf]
  simp [hnil]

theorem categoryScore_secrets (fs : List RiskFinding)
    (hcat : ∀ f ∈ fs, f.category = RiskCategory.security)
    (hsw : ∀ f ∈ fs, f.score * levelWeight f.level = 27 / 10)
    (hne : fs ≠ []) :
    calculateCategoryScore fs RiskCategory.security = 1 := by
  unfold calculateCategoryScore
  have hfilter : fs.filter (fun f => f.category == RiskCategory.security) = fs :=
    List.filter_eq_self.mpr (fun f hf => by simp [hcat f hf])
  rw [hfilter, if_neg (by simpa [List.isEmpty_iff] using hne)]
  rw [weighted_sum_const (27 / 10) fs hsw]
  have hlen : (1 : ℚ) ≤ (fs.length : ℚ) := by
    have h1 : 1 ≤ fs.length := Nat.one_le_iff_ne_zero.mpr
      (by simpa [List.length_eq_zero] using hne)
    exact_mod_cast h1
  have hn : (fs.length : ℚ) ≠ 0 := by linarith
  have hdiv : (27 / 10 : ℚ) * (fs.length : ℚ) / (fs.length : ℚ) = 27 / 10 := by
    field_simp
    ring
  rw [hdiv]
  rw [min_eq_right (by norm_num)]

theorem secretsOnly_assessment (filePath content : String) (pr : ParseResult)
    (hsql : detectSqlInjection content filePath = [])
    (hxss : detectXss content filePath = [])
    (hpath : detectPathTraversal content filePath = [])
    (hgr : detectGrantsSecurityIssues content filePath = [])
    (hlen : (detectHardcodedSecrets content filePath).length = 3)
    (hbus : analyzeBusinessImpact content filePath = []) :
    (analyzeChange defaultWeights filePath content pr 0).overallScore = 0.4
    ∧ (analyzeChange defaultWeights filePath content pr 0).level = RiskLevel.medium := by
  have hscan : scanContent content filePath = detectHardcodedSecrets content filePath := by
    unfold scanContent
    rw [hsql, hxss, hpath, hgr]
    simp
  have hne : detectHardcodedSecrets content filePath ≠ [] := by
    intro h
    rw [h] at hlen
    simp at hlen
  have hsecScore :
      calculateCategoryScore (scanContent content filePath) RiskCategory.security = 1 := by
    rw [hscan]
    refine categoryScore_secrets _ ?_ ?_ hne
    · exact fun f hf => (mem_detectHardcodedSecrets content filePath f hf).1
    · intro f hf
      obtain ⟨_, hl, hs⟩ := mem_detectHardcodedSecrets content filePath f hf
      rw [hl, hs]
      norm_num [levelWeight]
  have hbusScore :
      calculateCategoryScore (analyzeBusinessImpact content filePath)
        RiskCategory.businessLogic = 0 := by
    rw [hbus]
    rfl
  have hoverall : (analyzeChange defaultWeights filePath content pr 0).overallScore = 0.4 := by
    show calculateCategoryScore (scanContent content filePath) RiskCategory.security
        * defaultWeights.security
      + 0 / 10 * defaultWeights.complexity
      + calculateCategoryScore (analyzeBusinessImpact content filePath)
          RiskCategory.businessLogic * defaultWeights.businessImpact = 0.4
    rw [hsecScore, hbusScore]
    norm_num [defaultWeights]
  refine ⟨hoverall, ?_⟩
  show determineRiskLevel
      (calculateCategoryScore (scanContent content filePath) RiskCategory.security
        * defaultWeights.security
      + 0 / 10 * defaultWeights.complexity
      + calculateCategoryScore (analyzeBusinessImpact content filePath)
          RiskCategory.businessLogic * defaultWeights.businessImpact) = RiskLevel.medium
  rw [hsecScore, hbusScore]
  have hval : (1 : ℚ) * defaultWeights.security + 0 / 10 * defaultWeights.complexity
      + 0 * defaultWeights.businessImpact = 0.4 := by
    norm_num [defaultWeights]
  rw [hval]
  unfold determineRiskLevel
  rw [if_neg (by norm_num), if_neg (by norm_num), if_pos (by norm_num)]

theorem emptyContent_assessment (filePath : String) (pr : ParseResult) (c : ℚ)
    (_h0 : 0 ≤ c) (h10 : c ≤ 10)
    (hbus : analyzeBusinessImpact "" filePath = []) :
    (analyzeChange defaultWeights filePath "" pr c).level = RiskLevel.low := by
  have hscan : scanContent "" filePath = [] := rfl
  have hsecScore :
      calculateCategoryScore (scanContent "" filePath) RiskCategory.security = 0 := by
    rw [hscan]
    rfl
  have hbusScore :
      calculateCategoryScore (analyzeBusinessImpact "" filePath)
        RiskCategory.businessLogic = 0 := by
    rw [hbus]
    rfl
  show determineRiskLevel
      (calculateCategoryScore (scanContent "" filePath) RiskCategory.security
        * defaultWeights.security
      + c / 10 * defaultWeights.complexity
      + calculateCategoryScore (analyzeBusinessImpact "" filePath)
          RiskCategory.businessLogic * defaultWeights.businessImpact) = RiskLevel.low
  rw [hsecScore, hbusScore]
  have hval : (0 : ℚ) * defaultWeights.security + c / 10 * defaultWeights.complexity
      + 0 * defaultWeights.businessImpact = c / 50 := by
    norm_num [defaultWeights]
    ring
  rw [hval]
  have hbound : c / 50 ≤ 1 / 5 := by linarith
  unfold determineRiskLevel
  rw [if_neg (by norm_num; linarith), if_neg (by norm_num; linarith),
    if_neg (by norm_num; linarith)]

/-- Claim C2, counterexample: A synthetic `creds.txt` file whose three lines
match three distinct hardcoded-secret patterns and no other risk signal,
analysed with complexity score 0 under the default weights, is assigned
overall level `medium` — not `high` and not `critical` as claimed (its
security score is 1.0 but contributes only its 0.4 weight to the overall
score of 0.4). -/
theorem risk_three_secrets_counterexample :
    (analyzeChange defaultWeights "creds.txt" secretContent
        (ParseResult.ok (PyAst.node PyKind.kOther [])) 0).level ≠ RiskLevel.high
    ∧ (analyzeChange defaultWeights "creds.txt" secretContent
        (ParseResult.ok (PyAst.node PyKind.kOther [])) 0).level ≠ RiskLevel.critical := by
  have h := secretsOnly_assessment "creds.txt" secretContent
    (ParseResult.ok (PyAst.node PyKind.kOther [])) rfl rfl rfl rfl rfl rfl
  rw [h.2]
  exact ⟨by simp, by simp⟩

/-- Claim C2, amended: Under the default weights, a file whose content
carries exactly three hardcoded-secret findings and no other risk signal,
with change complexity 0, has overall score 0.4 and risk level `medium`
(never `low`, but also not `high`/`critical`); an empty file with no risky
vocabulary in its path is classified `low` for any change complexity in
[0, 10]. -/
theorem risk_three_secrets_amended :
    (∀ (filePath content : String) (pr : ParseResult),
      detectSqlInjection content filePath = [] →
      detectXss content filePath = [] →
      detectPathTraversal content filePath = [] →
      detectGrantsSecurityIssues content filePath = [] →
      (detectHardcodedSecrets content filePath).length = 3 →
      analyzeBusinessImpact content filePath = [] →
      (analyzeChange defaultWeights filePath content pr 0).overallScore = 0.4
        ∧ (analyzeChange defaultWeights filePath content pr 0).level = RiskLevel.medium
        ∧ (analyzeChange defaultWeights filePath content pr 0).level ≠ RiskLevel.low)
    ∧ (∀ (filePath : String) (pr : ParseResult) (c : ℚ),
      0 ≤ c → c ≤ 10 →
      analyzeBusinessImpact "" filePath = [] →
      (analyzeChange defaultWeights filePath "" pr c).level = RiskLevel.low) := by
  constructor
  · intro filePath content pr hsql hxss hpath hgr hlen hbus
    have h := secretsOnly_assessment filePath content pr hsql hxss hpath hgr hlen hbus
    exact ⟨h.1, h.2, by rw [h.2]; simp⟩
  · exact emptyContent_assessment

/-- Witness for the amended C2 at concrete inputs: the three-secret
`creds.txt` file is classified `medium`; an empty `empty.py` file (whose
AST is an empty module) with change complexity 10 is classified `low`. -/
theorem risk_three_secrets_amended_witness :
    (analyzeChange defaultWeights "creds.txt" secretContent
        (ParseResult.ok (PyAst.node PyKind.kOther [])) 0).level = RiskLevel.medium
    ∧ (analyzeChange defaultWeights "empty.py" ""
        (ParseResult.ok (PyAst.node PyKind.kOther [])) 10).level = RiskLevel.low :=
  ⟨(risk_three_secrets_amended.1 "creds.txt" secretContent
      (ParseResult.ok (PyAst.node PyKind.kOther [])) rfl rfl rfl rfl rfl rfl).2.1,
   risk_three_secrets_amended.2 "empty.py"
      (ParseResult.ok (PyAst.node PyKind.kOther [])) 10 (by norm_num) (by norm_num) rfl⟩

/-- Claim C10: Findings of the grants-specific financial-data scan all carry
category `DATA_INTEGRITY`; when every finding of an assessment is of that
category, the security score (computed over SECURITY findings only) and the
business-impact score (computed over BUSINESS_LOGIC findings only) are both
0, so the overall score reduces to the normalized change complexity times
the complexity weight. -/
theorem financial_findings_only_complexity :
    (∀ (content filePath : String), ∀ f ∈ detectGrantsSecurityIssues content filePath,
      f.category = RiskCategory.dataIntegrity)
    ∧ (∀ (w : RiskWeights) (filePath content : String) (pr : ParseResult) (c : ℚ),
      (∀ f ∈ (analyzeChange w filePath content pr c).findings,
        f.category = RiskCategory.dataIntegrity) →
      (analyzeChange w filePath content pr c).securityScore = 0
        ∧ (analyzeChange w filePath content pr c).businessImpactScore = 0
        ∧ (analyzeChange w filePath content pr c).overallScore = c / 10 * w.complexity) := by
  constructor
  · exact fun content filePath => mem_detectGrantsSecurityIssues content filePath
  · intro w filePath content pr c h
    have hfind : (analyzeChange w filePath content pr c).findings
        = scanContent content filePath
          ++ (if pathSuffixIsPy filePath then analyzePythonComplexity pr filePath else [])
          ++ analyzeBusinessImpact content filePath := rfl
    rw [hfind] at h
    have hsecScore :
        calculateCategoryScore (scanContent content filePath) RiskCategory.security = 0 := by
      refine categoryScore_of_not_mem _ _ (fun f hf => ?_)
      have := h f (by
        refine List.mem_append_left _ (List.mem_append_left _ hf))
      rw [this]
      simp
    have hbusScore :
        calculateCategoryScore (analyzeBusinessImpact content filePath)
          RiskCategory.businessLogic = 0 := by
      refine categoryScore_of_not_mem _ _ (fun f hf => ?_)
      have := h f (List.mem_append_right _ hf)
      rw [this]
      simp
    refine ⟨hsecScore, hbusScore, ?_⟩
    show calculateCategoryScore (scanContent content filePath) RiskCategory.security
        * w.security
      + c / 10 * w.complexity
      + calculateCategoryScore (analyzeBusinessImpact content filePath)
          RiskCategory.businessLogic * w.businessImpact = c / 10 * w.complexity
    rw [hsecScore, hbusScore]
    ring

/-- Witness for C10 at a concrete input: a `data.txt` file whose single
line `amount = 100` triggers only the financial-data scan, analysed with
change complexity 5 under the default weights. -/
theorem financial_findings_only_complexity_witness :
    (analyzeChange defaultWeights "data.txt" "amount = 100"
        (ParseResult.ok (PyAst.node PyKind.kOther [])) 5).securityScore = 0
    ∧ (analyzeChange defaultWeights "data.txt" "amount = 100"
        (ParseResult.ok (PyAst.node PyKind.kOther [])) 5).businessImpactScore = 0
    ∧ (analyzeChange defaultWeights "data.txt" "amount = 100"
        (ParseResult.ok (PyAst.node PyKind.kOther [])) 5).overallScore
      = 5 / 10 * defaultWeights.complexity :=
  financial_findings_only_complexity.2 defaultWeights "data.txt" "amount = 100"
    (ParseResult.ok (PyAst.node PyKind.kOther [])) 5 (by decide)

end Risk

namespace Orchestrator

/-- Python's `int()` on a float: truncation toward zero. -/
def pyInt (q : ℚ) : Int :=
  if q < 0 then ⌈q⌉ else ⌊q⌋

/-- The `AdaptiveTestingOrchestrator._calculate_test_priority`: base 5, plus
`min(risk_score * 5, 5)` risk points, plus `min(complexity_score / 10 * 3, 3)`
complexity points, plus a fixed business-criticality bonus of 2, truncated
to an integer and capped at 10. -/
def calculateTestPriority (riskScore complexityScore : ℚ) : Int :=
  let basePriority : ℚ := 5
  let riskPoints : ℚ := min (riskScore * 5) 5
  let complexityPoints : ℚ := min (complexityScore / 10 * 3) 3
  let businessPoints : ℚ := 2
  let totalPriority := basePriority + riskPoints + complexityPoints + businessPoints
  min (pyInt totalPriority) 10

/-- The `TestGenerationRequest` dataclass from `orchestrator.py`
(`complexity_metrics: Dict[str, float]` modelled as an association list). -/
structure TestGenerationRequest where
  sourceFile : String
  testCategory : String
  priority : Int
  complexityMetrics : List (String × ℚ)
  dependencies : List String
  businessContext : String

/-- The order in which `_generation_phase` processes test requests:
`sorted(test_requests, key=lambda x: x.priority, reverse=True)`. Python's
`sorted` is a stable sort; a stable insertion sort by the same descending
key order produces the identical list. -/
def requestOrder (reqs : List TestGenerationRequest) : List TestGenerationRequest :=
  reqs.insertionSort (fun a b => b.priority ≤ a.priority)

end Orchestrator

namespace Orchestrator

/-- Claim C8: The test-generation priority equals the truncated value of
`5 + min(risk*5, 5) + min(complexity/10*3, 3) + 2` capped at 10; for risk in
[0,1] and complexity in [0,10] it always lies in 1..10 (indeed in 7..10);
and the generation phase processes requests in descending priority order (a
permutation of the input sorted by non-increasing priority). -/
theorem test_priority_range_and_order (r c : ℚ)
    (hr0 : 0 ≤ r) (_hr1 : r ≤ 1) (hc0 : 0 ≤ c) (_hc10 : c ≤ 10) :
    calculateTestPriority r c
      = min (pyInt (5 + min (r * 5) 5 + min (c / 10 * 3) 3 + 2)) 10
    ∧ 1 ≤ calculateTestPriority r c
    ∧ calculateTestPriority r c ≤ 10
    ∧ ∀ reqs : List TestGenerationRequest,
        List.Sorted (fun a b => b.priority ≤ a.priority) (requestOrder reqs)
        ∧ (requestOrder reqs).Perm reqs := by
  have hrisk : (0 : ℚ) ≤ min (r * 5) 5 := le_min (by positivity) (by norm_num)
  have hcplx : (0 : ℚ) ≤ min (c / 10 * 3) 3 := le_min (by positivity) (by norm_num)
  have htot : (7 : ℚ) ≤ 5 + min (r * 5) 5 + min (c / 10 * 3) 3 + 2 := by linarith
  have hpy : (7 : ℤ) ≤ pyInt (5 + min (r * 5) 5 + min (c / 10 * 3) 3 + 2) := by
    unfold pyInt
    rw [if_neg (by linarith)]
    exact Int.le_floor.mpr (by push_cast; linarith)
  refine ⟨rfl, ?_, ?_, ?_⟩
  · show (1 : ℤ) ≤ min (pyInt (5 + min (r * 5) 5 + min (c / 10 * 3) 3 + 2)) 10
    exact le_min (by linarith) (by norm_num)
  · exact min_le_right _ _
  · intro reqs
    haveI hTotal : IsTotal TestGenerationRequest (fun a b => b.priority ≤ a.priority) :=
      ⟨fun a b => le_total b.priority a.priority⟩
    haveI hTrans : IsTrans TestGenerationRequest (fun a b => b.priority ≤ a.priority) :=
      ⟨fun _ _ _ hab hbc => le_trans hbc hab⟩
    exact ⟨List.sorted_insertionSort _ reqs, List.perm_insertionSort _ reqs⟩

/-- Witness for C8 at a concrete input: risk 1 and complexity 10 give a
priority between 1 and 10. -/
theorem test_priority_range_and_order_witness :
    1 ≤ calculateTestPriority 1 10 ∧ calculateTestPriority 1 10 ≤ 10 :=
  ⟨(test_priority_range_and_order 1 10 (by norm_num) (by norm_num) (by norm_num)
      (by norm_num)).2.1,
   (test_priority_range_and_order 1 10 (by norm_num) (by norm_num) (by norm_num)
      (by norm_num)).2.2.1⟩

end Orchestrator

namespace ErrorHandling

/-- How `format_error_response` discriminates an exception with
`isinstance`: one of the project's `MCPError` leaf classes, or anything
else (`generic`, which covers foreign exceptions and the `MCPError` base). -/
inductive ErrKind where
  | apiError (statusCode : Option Nat)
  | validationError (field : Option String)
  | networkError
  | rateLimitError (retryAfter : Option Nat)
  | cacheError
  | generic
deriving Repr, DecidableEq

/-- The attributes of a Python exception that `error_handling.py` reads:
its class for the `isinstance` branches, `type(error).__name__`,
`str(error)`, an optional aiohttp-style `status` attribute, whether a
`message` attribute exists, and the `error_code` attribute when the
exception is an `MCPError` (every `MCPError` has one; `none` means the
exception is not an `MCPError` at all). -/
structure PyException where
  kind : ErrKind
  typeName : String
  message : String
  status : Option Nat
  hasMessageAttr : Bool
  errorCode : Option String
deriving Repr, DecidableEq

/-- Python truthiness of an optional integer attribute (`if error.status_code:`
is false for both `None` and `0`). -/
def optNatTruthy : Option Nat → Bool
  | none => false
  | some n => n != 0

/-- Python truthiness of an optional string attribute (false for `None` and
for the empty string). -/
def optStrTruthy : Option String → Bool
  | none => false
  | some s => !s.isEmpty

/-- Case-insensitively consume the (lowercase) pattern from the front of the
input, returning the rest. -/
def consumeCI : List Char → List Char → Option (List Char)
  | [], cs => some cs
  | _ :: _, [] => none
  | p :: ps, c :: cs => if c.toLower == p then consumeCI ps cs else none

/-- Match `PATTERN[=:]\s*[^\s&]+` (with `re.IGNORECASE`) at the head of the
input, as one step of `sanitize_error_message`; returns the input after the
match. The greedy `\s*` then mandatory `[^\s&]+` run is deterministic
because no backtracking alternative can succeed. -/
def matchSecretAt (pat cs : List Char) : Option (List Char) :=
  match consumeCI pat cs with
  | none => none
  | some rest =>
    match rest with
    | [] => none
    | d :: rest2 =>
      if d == '=' || d == ':' then
        let rest3 := rest2.dropWhile Risk.isPySpace
        let run := rest3.takeWhile (fun c => !Risk.isPySpace c && c != Char.ofNat 38)
        if run.isEmpty then none else some (rest3.drop run.length)
      else none

/-- The `re.sub` for one sanitization pattern: scan left to right, replacing each
non-overlapping leftmost match by `pattern=REPLACEMENT`. Each match consumes
at least one character, so the input length bounds the recursion (the fuel
makes it structural). -/
def subSecretFuel (pat repl : List Char) : Nat → List Char → List Char
  | 0, cs => cs
  | _ + 1, [] => []
  | fuel + 1, c :: cs =>
    match matchSecretAt pat (c :: cs) with
    | some rest => (pat ++ ('=' :: repl)) ++ subSecretFuel pat repl fuel rest
    | none => c :: subSecretFuel pat repl fuel cs

/-- The `sensitive_patterns` table of `sanitize_error_message`. -/
def sensitiveReplacements : List (String × String) :=
  [("api_key", "***API_KEY***"), ("apikey", "***API_KEY***"),
   ("password", "***PASSWORD***"), ("token", "***TOKEN***"),
   ("secret", "***SECRET***"), ("auth", "***AUTH***"),
   ("bearer", "***BEARER***")]

/-- The `sanitize_error_message`: the seven case-insensitive `re.sub`
substitutions applied in table order. -/
def sanitizeErrorMessage (msg : String) : String :=
  String.mk (sensitiveReplacements.foldl
    (fun cs pr => subSecretFuel pr.1.toList pr.2.toList cs.length cs) msg.toList)

/-- A single-quote character as a string (for building messages that quote a
field name). -/
def sq : String := String.mk [Char.ofNat 39]

/-- The `format_error_response`: branches on the error kind, then for generic
errors exposing both `status` and `message` attributes on the status code,
then on raw-message keywords; the fallback mentions only the operation. -/
def formatErrorResponse (error : PyException) (operation : String) : String :=
  let sanitizedMessage := sanitizeErrorMessage error.message
  match error.kind with
  | ErrKind.apiError statusCode =>
    if optNatTruthy statusCode then
      "API Error (" ++ toString (statusCode.getD 0) ++ "): " ++ sanitizedMessage
    else "API Error: " ++ sanitizedMessage
  | ErrKind.validationError field =>
    if optStrTruthy field then
      "Validation Error in field " ++ sq ++ field.getD "" ++ sq ++ ": " ++ sanitizedMessage
    else "Validation Error: " ++ sanitizedMessage
  | ErrKind.networkError =>
    "Network Error: Unable to connect to grants API. Please check your internet connection and try again."
  | ErrKind.rateLimitError retryAfter =>
    if optNatTruthy retryAfter then
      "Rate Limit Exceeded: Please wait " ++ toString (retryAfter.getD 0)
        ++ " seconds before trying again."
    else "Rate Limit Exceeded: Too many requests. Please try again later."
  | ErrKind.cacheError =>
    "Cache Error during " ++ operation ++ ": " ++ sanitizedMessage
  | ErrKind.generic =>
    match error.status, error.hasMessageAttr with
    | some status, true =>
      if status == 401 then
        "Authentication Error: Invalid API key. Please check your API key configuration."
      else if status == 403 then
        "Authorization Error: Access denied. Please verify your API permissions."
      else if status == 404 then
        "Resource Not Found: The requested resource could not be found."
      else if status == 429 then
        "Rate Limit Exceeded: Too many requests. Please try again later."
      else if status == 500 then
        "Server Error: The grants API is experiencing issues. Please try again later."
      else if status == 503 then
        "Service Unavailable: The grants API is temporarily unavailable. Please try again later."
      else
        "HTTP Error (" ++ toString status ++ "): " ++ sanitizedMessage
    | _, _ =>
      if Risk.containsChars "timeout".toList (error.message.toList.map Char.toLower) then
        "Request Timeout: The operation took too long to complete. Please try again."
      else if Risk.containsChars "connection".toList (error.message.toList.map Char.toLower) then
        "Connection Error: Unable to connect to the grants API. Please check your network connection."
      else
        "An unexpected error occurred during " ++ operation
          ++ ". Please try again or contact support if the issue persists."

/-- The `status_messages` dict of `handle_api_error`. -/
def statusMessage : Nat → Option String
  | 400 => some "Invalid request parameters. Please check your search criteria."
  | 401 => some "Authentication failed. Please verify your API key is correct and active."
  | 403 => some "Access denied. Your API key may not have permission for this operation."
  | 404 => some "The requested resource was not found. The API endpoint may have changed."
  | 429 => some "Too many requests. Please wait before trying again to avoid rate limits."
  | 500 => some "The grants API is experiencing technical difficulties. Please try again later."
  | 502 => some "The grants API gateway is unavailable. Please try again in a few minutes."
  | 503 => some "The grants API is temporarily unavailable for maintenance. Please try again later."
  | 504 => some "The grants API request timed out. Please try again with a simpler query."
  | _ => none

/-- The `handle_api_error`: status-specific messages (with 4xx/5xx range
fallbacks), else raw-message keyword matches, else a generic apology.
`log_error_context` only logs and is not modelled. The `url`/`operation`
arguments do not influence the returned string. -/
def handleApiError (error : PyException) (_url _operation : String) : String :=
  let viaStatus : Option String :=
    match error.status with
    | some s =>
      match statusMessage s with
      | some m => some m
      | none =>
        if 400 ≤ s ∧ s < 500 then
          some ("Client error (" ++ toString s
            ++ "): There was an issue with the request. Please check your parameters and try again.")
        else if 500 ≤ s ∧ s < 600 then
          some ("Server error (" ++ toString s
            ++ "): The grants API is having issues. Please try again later.")
        else none
    | none => none
  match viaStatus with
  | some m => m
  | none =>
    let msgLower := error.message.toList.map Char.toLower
    if Risk.containsChars "timeout".toList msgLower then
      "The request took too long to complete. Please try again or simplify your search."
    else if Risk.containsChars "connection".toList msgLower
        || Risk.containsChars "network".toList msgLower then
      "Unable to connect to the grants API. Please check your internet connection."
    else if Risk.containsChars "ssl".toList msgLower
        || Risk.containsChars "certificate".toList msgLower then
      "SSL/TLS error connecting to the grants API. This may be a temporary network issue."
    else if Risk.containsChars "dns".toList msgLower
        || Risk.containsChars "resolve".toList msgLower then
      "Unable to resolve the grants API hostname. Please check your DNS settings."
    else
      "An unexpected error occurred while accessing the grants API. Please try again."

/-- The non-retry condition of `retry_with_backoff`:
`isinstance(e, (ValidationError, MCPError)) and e.error_code in
['VALIDATION_ERROR']` — i.e. an `MCPError` whose `error_code` is
`VALIDATION_ERROR` (`ValidationError` is itself an `MCPError` subclass, so
the isinstance test reduces to being an `MCPError`). -/
def isValidationKind (e : PyException) : Bool :=
  e.errorCode == some "VALIDATION_ERROR"

/-- The retry loop of `retry_with_backoff.decorator.wrapper`, with
`remaining = max_retries - attempt` retries left after the current attempt.
`behavior k` is the outcome of the k-th invocation (0-indexed) of the
wrapped coroutine; the result pairs the total number of invocations
performed with the final outcome (`.ok` return or `.error` re-raise). -/
def retryGo {α : Type} (behavior : Nat → Except PyException α) (attempt : Nat) :
    Nat → Nat × Except PyException α
  | 0 =>
    match behavior attempt with
    | Except.ok v => (attempt + 1, Except.ok v)
    | Except.error e => (attempt + 1, Except.error e)
  | remaining + 1 =>
    match behavior attempt with
    | Except.ok v => (attempt + 1, Except.ok v)
    | Except.error e =>
      if isValidationKind e then (attempt + 1, Except.error e)
      else retryGo behavior (attempt + 1) remaining

/-- The `retry_with_backoff(max_retries, ...)` applied to a wrapped function
whose k-th invocation yields `behavior k`: the loop
`for attempt in range(max_retries + 1)`. -/
def retryWithBackoff {α : Type} (behavior : Nat → Except PyException α)
    (maxRetries : Nat) : Nat × Except PyException α :=
  retryGo behavior 0 maxRetries

/-- The backoff delay before a retry, given the sampled jitter fraction
`u = random.uniform(0, 0.1)`:
`delay = min(base_delay * 2 ** attempt, max_delay)`, then
`delay + u * delay`. -/
def retryDelay (baseDelay maxDelay : ℚ) (attempt : Nat) (u : ℚ) : ℚ :=
  let delay := min (baseDelay * 2 ^ attempt) maxDelay
  delay + u * delay

/-- A plain non-`MCPError` exception (retryable). -/
def plainError : PyException :=
  { kind := ErrKind.generic, typeName := "RuntimeError", message := "boom"
    status := none, hasMessageAttr := false, errorCode := none }

/-- A `ValidationError` (never retried). -/
def validationException : PyException :=
  { kind := ErrKind.validationError none, typeName := "ValidationError"
    message := "bad field", status := none, hasMessageAttr := true
    errorCode := some "VALIDATION_ERROR" }

/-- A wrapped function that fails twice, then succeeds with 42. -/
def flakyBehavior : Nat → Except PyException Nat :=
  fun k => if k < 2 then Except.error plainError else Except.ok 42

end ErrorHandling

namespace ErrorHandling

theorem retryGo_succeeds {α : Type} (behavior : Nat → Except PyException α)
    (errs : Nat → PyException) (v : α) :
    ∀ (n attempt remaining : Nat), n ≤ remaining →
    (∀ k, k < n → behavior (attempt + k) = Except.error (errs (attempt + k))
      ∧ isValidationKind (errs (attempt + k)) = false) →
    behavior (attempt + n) = Except.ok v →
    retryGo behavior attempt remaining = (attempt + n + 1, Except.ok v) := by
  intro n
  induction n with
  | zero =>
    intro attempt remaining _ _ hsucc
    rw [Nat.add_zero] at hsucc
    cases remaining with
    | zero => unfold retryGo; rw [hsucc]
    | succ r => unfold retryGo; rw [hsucc]
  | succ n ih =>
    intro attempt remaining hle hfail hsucc
    cases remaining with
    | zero => omega
    | succ r =>
      have h0 := hfail 0 (Nat.succ_pos n)
      rw [Nat.add_zero] at h0
      have hrec := ih (attempt + 1) r (by omega)
        (fun k hk => by
          have h := hfail (k + 1) (by omega)
          rwa [show attempt + (k + 1) = attempt + 1 + k by omega] at h)
        (by rwa [show attempt + (n + 1) = attempt + 1 + n by omega] at hsucc)
      unfold retryGo
      rw [h0.1]
      simp only [h0.2, Bool.false_eq_true, if_false, hrec]
      rw [show attempt + 1 + n = attempt + (n + 1) by omega]

theorem retryGo_fails {α : Type} (behavior : Nat → Except PyException α)
    (errs : Nat → PyException) :
    ∀ (remaining attempt : Nat),
    (∀ k, k ≤ remaining → behavior (attempt + k) = Except.error (errs (attempt + k))) →
    (∀ k, k < remaining → isValidationKind (errs (attempt + k)) = false) →
    retryGo behavior attempt remaining
      = (attempt + remaining + 1, Except.error (errs (attempt + remaining))) := by
  intro remaining
  induction remaining with
  | zero =>
    intro attempt hfail _
    have h0 := hfail 0 (Nat.le_refl 0)
    rw [Nat.add_zero] at h0
    unfold retryGo
    rw [h0]
    simp
  | succ r ih =>
    intro attempt hfail hnv
    have h0 := hfail 0 (by omega)
    rw [Nat.add_zero] at h0
    have h0v := hnv 0 (by omega)
    rw [Nat.add_zero] at h0v
    have hrec := ih (attempt + 1)
      (fun k hk => by
        have h := hfail (k + 1) (by omega)
        rwa [show attempt + (k + 1) = attempt + 1 + k by omega] at h)
      (fun k hk => by
        have h := hnv (k + 1) (by omega)
        rwa [show attempt + (k + 1) = attempt + 1 + k by omega] at h)
    unfold retryGo
    rw [h0]
    simp only [h0v, Bool.false_eq_true, if_false, hrec]
    rw [show attempt + 1 + r = attempt + (r + 1) by omega]

/-- Claim C3: The retry decorator: failing `n < max_retries` times then
succeeding yields the success value after exactly `n + 1` invocations;
always failing re-raises the last error after exactly `max_retries + 1`
invocations; a validation-kind error is raised after exactly one
invocation; and the backoff delay before retry `attempt` is
`min(base_delay * 2^attempt, max_delay)` plus the sampled jitter fraction
(up to 10%) of it, so it lies between the undelayed value and 1.1 times it. -/
theorem retry_with_backoff_behavior :
    (∀ (α : Type) (behavior : Nat → Except PyException α) (errs : Nat → PyException)
        (v : α) (n maxRetries : Nat),
      n < maxRetries →
      (∀ k, k < n → behavior k = Except.error (errs k) ∧ isValidationKind (errs k) = false) →
      behavior n = Except.ok v →
      retryWithBackoff behavior maxRetries = (n + 1, Except.ok v))
    ∧ (∀ (α : Type) (behavior : Nat → Except PyException α) (errs : Nat → PyException)
        (maxRetries : Nat),
      (∀ k, k ≤ maxRetries → behavior k = Except.error (errs k)) →
      (∀ k, k < maxRetries → isValidationKind (errs k) = false) →
      retryWithBackoff behavior maxRetries = (maxRetries + 1, Except.error (errs maxRetries)))
    ∧ (∀ (α : Type) (behavior : Nat → Except PyException α) (e : PyException)
        (maxRetries : Nat),
      behavior 0 = Except.error e → isValidationKind e = true →
      retryWithBackoff behavior maxRetries = (1, Except.error e))
    ∧ (∀ (base maxD u : ℚ) (attempt : Nat), 0 ≤ u → u ≤ 1 / 10 →
      retryDelay base maxD attempt u
          = min (base * 2 ^ attempt) maxD + u * min (base * 2 ^ attempt) maxD
        ∧ (0 ≤ base → 0 ≤ maxD →
          min (base * 2 ^ attempt) maxD ≤ retryDelay base maxD attempt u
          ∧ retryDelay base maxD attempt u ≤ 11 / 10 * min (base * 2 ^ attempt) maxD)) := by
  refine ⟨?_, ?_, ?_, ?_⟩
  · intro α behavior errs v n maxRetries hn hfail hsucc
    have h := retryGo_succeeds behavior errs v n 0 maxRetries (by omega)
      (fun k hk => by simpa using hfail k hk) (by simpa using hsucc)
    simpa [retryWithBackoff] using h
  · intro α behavior errs maxRetries hfail hnv
    have h := retryGo_fails behavior errs maxRetries 0
      (fun k hk => by simpa using hfail k hk) (fun k hk => by simpa using hnv k hk)
    simpa [retryWithBackoff] using h
  · intro α behavior e maxRetries h0 hval
    cases maxRetries with
    | zero => unfold retryWithBackoff retryGo; rw [h0]
    | succ r =>
      unfold retryWithBackoff retryGo
      rw [h0]
      simp [hval]
  · intro base maxD u attempt hu0 hu1
    refine ⟨rfl, fun hb hm => ?_⟩
    have hd : (0 : ℚ) ≤ min (base * 2 ^ attempt) maxD :=
      le_min (by positivity) hm
    constructor
    · show min (base * 2 ^ attempt) maxD
        ≤ min (base * 2 ^ attempt) maxD + u * min (base * 2 ^ attempt) maxD
      nlinarith
    · show min (base * 2 ^ attempt) maxD + u * min (base * 2 ^ attempt) maxD
        ≤ 11 / 10 * min (base * 2 ^ attempt) maxD
      nlinarith

/-- Witness for C3 at concrete inputs: two failures then success with
`max_retries = 3` returns 42 after 3 invocations; always failing with
`max_retries = 2` re-raises after 3 invocations; a validation error is
raised after 1 invocation; the delay before retry 3 at base 1s, cap 60s and
jitter fraction 1/20 is `min(8, 60)` plus a twentieth of it. -/
theorem retry_with_backoff_behavior_witness :
    retryWithBackoff flakyBehavior 3 = (3, Except.ok 42)
    ∧ retryWithBackoff (fun _ => (Except.error plainError : Except PyException Nat)) 2
        = (3, Except.error plainError)
    ∧ retryWithBackoff (fun _ => (Except.error validationException : Except PyException Nat)) 5
        = (1, Except.error validationException)
    ∧ retryDelay 1 60 3 (1 / 20)
        = min ((1 : ℚ) * 2 ^ 3) 60 + 1 / 20 * min ((1 : ℚ) * 2 ^ 3) 60 :=
  ⟨retry_with_backoff_behavior.1 Nat flakyBehavior (fun _ => plainError) 42 2 3
      (by norm_num) (by intro k hk; interval_cases k <;> exact ⟨rfl, rfl⟩) rfl,
   retry_with_backoff_behavior.2.1 Nat
      (fun _ => (Except.error plainError : Except PyException Nat))
      (fun _ => plainError) 2 (fun _ _ => rfl) (by decide),
   retry_with_backoff_behavior.2.2.1 Nat
      (fun _ => (Except.error validationException : Except PyException Nat))
      validationException 5 rfl (by decide),
   (retry_with_backoff_behavior.2.2.2 1 60 (1 / 20) 3 (by norm_num) (by norm_num)).1⟩

/-- A generic aiohttp-style exception with status 400. -/
def err400 : PyException :=
  { kind := ErrKind.generic, typeName := "ClientResponseError", message := "bad"
    status := some 400, hasMessageAttr := true, errorCode := none }

/-- Claim C5, counterexample: For a generic HTTP-status error with status 400,
`format_error_response` does not return the "invalid request parameters"
phrasing: it falls into the generic `HTTP Error (status)` branch (only
`handle_api_error` carries the claimed 400 mapping). -/
theorem format_error_400_counterexample :
    formatErrorResponse err400 "search" = "HTTP Error (400): bad"
    ∧ Risk.containsChars "invalid".toList
        ((formatErrorResponse err400 "search").toList.map Char.toLower) = false
    ∧ handleApiError err400 "" "API call"
        = "Invalid request parameters. Please check your search criteria." := by
  refine ⟨by decide, by decide, by decide⟩

/-- Claim C5, amended: The status→phrasing table of the claim (400 invalid
request parameters, 401 authentication failed, 403 access denied, 404 not
found, 429 rate limit, 500/502/503/504 upstream unavailable) is implemented
by `handle_api_error`, which returns exactly the table entry whenever the
error's status is a key; `format_error_response` maps only
401/403/404/429/500/503 specifically and phrases other statuses (400, 502,
504, ...) as generic `HTTP Error (status)`; and neither function's output
depends on the exception's type name (no type name or stack detail is
included). -/
theorem error_status_phrasing_amended :
    (([400, 401, 403, 404, 429, 500, 502, 503, 504] : List Nat).map statusMessage
      = [some "Invalid request parameters. Please check your search criteria.",
         some "Authentication failed. Please verify your API key is correct and active.",
         some "Access denied. Your API key may not have permission for this operation.",
         some "The requested resource was not found. The API endpoint may have changed.",
         some "Too many requests. Please wait before trying again to avoid rate limits.",
         some "The grants API is experiencing technical difficulties. Please try again later.",
         some "The grants API gateway is unavailable. Please try again in a few minutes.",
         some "The grants API is temporarily unavailable for maintenance. Please try again later.",
         some "The grants API request timed out. Please try again with a simpler query."])
    ∧ (∀ (e : PyException) (url op : String) (s : Nat) (m : String),
        e.status = some s → statusMessage s = some m → handleApiError e url op = m)
    ∧ (∀ (e : PyException) (op : String),
        e.kind = ErrKind.generic → e.hasMessageAttr = true →
        (e.status = some 401 → formatErrorResponse e op
          = "Authentication Error: Invalid API key. Please check your API key configuration.")
        ∧ (e.status = some 403 → formatErrorResponse e op
          = "Authorization Error: Access denied. Please verify your API permissions.")
        ∧ (e.status = some 404 → formatErrorResponse e op
          = "Resource Not Found: The requested resource could not be found.")
        ∧ (e.status = some 429 → formatErrorResponse e op
          = "Rate Limit Exceeded: Too many requests. Please try again later.")
        ∧ (e.status = some 500 → formatErrorResponse e op
          = "Server Error: The grants API is experiencing issues. Please try again later.")
        ∧ (e.status = some 503 → formatErrorResponse e op
          = "Service Unavailable: The grants API is temporarily unavailable. Please try again later.")
        ∧ (e.status = some 400 → formatErrorResponse e op
          = "HTTP Error (400): " ++ sanitizeErrorMessage e.message)
        ∧ (e.status = some 502 → formatErrorResponse e op
          = "HTTP Error (502): " ++ sanitizeErrorMessage e.message)
        ∧ (e.status = some 504 → formatErrorResponse e op
          = "HTTP Error (504): " ++ sanitizeErrorMessage e.message))
    ∧ (∀ (e : PyException) (url op t : String),
        formatErrorResponse { e with typeName := t } op = formatErrorResponse e op
        ∧ handleApiError { e with typeName := t } url op = handleApiError e url op) := by
  refine ⟨rfl, ?_, ?_, ?_⟩
  · intro e url op s m hstatus hm
    simp only [handleApiError, hstatus, hm]
  · intro e op hkind hattr
    obtain ⟨kind, tn, msg, st, hma, ec⟩ := e
    simp only at hkind hattr
    subst hkind
    subst hattr
    refine ⟨?_, ?_, ?_, ?_, ?_, ?_, ?_, ?_, ?_⟩ <;>
      (intro hst; simp only at hst; subst hst; rfl)
  · intro e url op t
    exact ⟨rfl, rfl⟩

/-- Witness for the amended C5 at a concrete input: `handle_api_error` on
the status-400 exception returns the invalid-request-parameters phrasing. -/
theorem error_status_phrasing_amended_witness :
    handleApiError err400 "https://api.example.gov" "search"
      = "Invalid request parameters. Please check your search criteria." :=
  error_status_phrasing_amended.2.1 err400 "https://api.example.gov" "search" 400
    "Invalid request parameters. Please check your search criteria." rfl rfl

end ErrorHandling

namespace Schemas

/-- A JSON-like value as delivered by the upstream API and fed to the
pydantic models of `grants_schemas.py`. -/
inductive JValue where
  | jnull
  | jbool (b : Bool)
  | jint (n : Int)
  | jnum (q : ℚ)
  | jstr (s : String)
  | jarr (xs : List JValue)
  | jobj (fields : List (String × JValue))
deriving Repr

/-- A record of the response's `data` list (a Python dict unpacked with
`**item` into a model constructor). -/
abbrev Record := List (String × JValue)

/-- Dict lookup. -/
def lookupField (fields : Record) (key : String) : Option JValue :=
  (fields.find? (fun p => p.1 == key)).map (fun p => p.2)

/-- pydantic v2 (the `model_config = {"extra": "allow"}` style of these
models) validation of a required `str` field: only an actual string
validates — in particular an integer is **not** coerced to a string
(`coerce_numbers_to_str` is not enabled). A missing or non-string value is
a `ValidationError`. -/
def asStr (v : Option JValue) : Option String :=
  match v with
  | some (JValue.jstr s) => some s
  | _ => none

/-- Validation of an `Optional[str] = None` field: missing or null gives
`None`; a string validates; anything else is a `ValidationError`. -/
def asOptStr (v : Option JValue) : Option (Option String) :=
  match v with
  | none => some none
  | some JValue.jnull => some none
  | some (JValue.jstr s) => some (some s)
  | some _ => none

/-- Decimal digits to a natural number. -/
def digitsToNat (ds : List Char) : Nat :=
  ds.foldl (fun acc c => acc * 10 + (c.toNat - 48)) 0

/-- A plain decimal literal (optional sign, digits, optional fraction),
modelling pydantic v2's lax numeric-string parsing for the forms the
upstream API emits (scientific notation is not modelled; no claim
exercises it). -/
def parseDecimal (s : String) : Option ℚ :=
  let cs := s.toList
  let sign : ℚ × List Char :=
    match cs with
    | '-' :: rest => (-1, rest)
    | '+' :: rest => (1, rest)
    | _ => (1, cs)
  let ip := sign.2.takeWhile Char.isDigit
  let cs2 := sign.2.drop ip.length
  match cs2 with
  | [] => if ip.isEmpty then none else some (sign.1 * (digitsToNat ip : ℚ))
  | c :: rest =>
    if c == '.' then
      let fp := rest.takeWhile Char.isDigit
      let cs3 := rest.drop fp.length
      if cs3.isEmpty && !(ip.isEmpty && fp.isEmpty) then
        some (sign.1 * ((digitsToNat ip : ℚ) + (digitsToNat fp : ℚ) / (10 : ℚ) ^ fp.length))
      else none
    else none

/-- Validation of an `Optional[float] = None` field under pydantic v2 lax
mode: missing/null gives `None`; ints, floats and numeric strings coerce;
anything else fails. -/
def asOptFloat (v : Option JValue) : Option (Option ℚ) :=
  match v with
  | none => some none
  | some JValue.jnull => some none
  | some (JValue.jint n) => some (some (n : ℚ))
  | some (JValue.jnum q) => some (some q)
  | some (JValue.jstr s) => (parseDecimal s).map some
  | some _ => none

/-- Validation of an `Optional[int] = None` field under pydantic v2 lax
mode: ints validate; floats and numeric strings coerce when their value is
integral; anything else fails. -/
def asOptInt (v : Option JValue) : Option (Option Int) :=
  match v with
  | none => some none
  | some JValue.jnull => some none
  | some (JValue.jint n) => some (some n)
  | some (JValue.jnum q) => if q.den == 1 then some (some q.num) else none
  | some (JValue.jstr s) =>
    match parseDecimal s with
    | some q => if q.den == 1 then some (some q.num) else none
    | none => none
  | some _ => none

/-- All-strings check for an `Optional[List[str]]` field's array elements. -/
def strElems (xs : List JValue) : Option (List String) :=
  xs.mapM (fun v =>
    match v with
    | JValue.jstr s => some s
    | _ => none)

/-- Validation of an `Optional[List[str]] = None` field. -/
def asOptStrList (v : Option JValue) : Option (Option (List String)) :=
  match v with
  | none => some none
  | some JValue.jnull => some none
  | some (JValue.jarr xs) => (strElems xs).map some
  | some _ => none

/-- The `OpportunitySummary` model (all fields optional with default `None`). -/
structure OpportunitySummary where
  award_ceiling : Option ℚ
  award_floor : Option ℚ
  estimated_total_program_funding : Option ℚ
  expected_number_of_awards : Option Int
  post_date : Option String
  close_date : Option String
  archive_date : Option String
  summary_description : Option String
  additional_info_url : Option String
  agency_contact_description : Option String
  agency_email_address : Option String
  agency_phone_number : Option String
  applicant_eligibility_description : Option String
  applicant_types : Option (List String)
  funding_category : Option String
  funding_instrument : Option String
deriving Repr, DecidableEq

/-- The `OpportunityV1` model: seven required string fields, a required embedded
`OpportunitySummary`, two optional strings. `extra = "allow"` means unknown
keys are tolerated (the parser below simply never looks at them). -/
structure OpportunityV1 where
  opportunity_id : String
  opportunity_number : String
  opportunity_title : String
  opportunity_status : String
  agency : String
  agency_code : String
  agency_name : String
  summary : OpportunitySummary
  category : Option String
  category_explanation : Option String
deriving Repr, DecidableEq

/-- The `AgencyV1` model. -/
structure AgencyV1 where
  agency_code : String
  agency_name : String
  sub_agency_code : Option String
  sub_agency_name : Option String
  top_level_agency_name : Option String
deriving Repr, DecidableEq

/-- Field-wise validation of `OpportunitySummary(**fields)`; `none` is a
pydantic `ValidationError`. -/
def parseOpportunitySummary (fields : Record) : Option OpportunitySummary :=
  (asOptFloat (lookupField fields "award_ceiling")).bind fun award_ceiling =>
  (asOptFloat (lookupField fields "award_floor")).bind fun award_floor =>
  (asOptFloat (lookupField fields "estimated_total_program_funding")).bind
    fun estimated_total_program_funding =>
  (asOptInt (lookupField fields "expected_number_of_awards")).bind
    fun expected_number_of_awards =>
  (asOptStr (lookupField fields "post_date")).bind fun post_date =>
  (asOptStr (lookupField fields "close_date")).bind fun close_date =>
  (asOptStr (lookupField fields "archive_date")).bind fun archive_date =>
  (asOptStr (lookupField fields "summary_description")).bind fun summary_description =>
  (asOptStr (lookupField fields "additional_info_url")).bind fun additional_info_url =>
  (asOptStr (lookupField fields "agency_contact_description")).bind
    fun agency_contact_description =>
  (asOptStr (lookupField fields "agency_email_address")).bind fun agency_email_address =>
  (asOptStr (lookupField fields "agency_phone_number")).bind fun agency_phone_number =>
  (asOptStr (lookupField fields "applicant_eligibility_description")).bind
    fun applicant_eligibility_description =>
  (asOptStrList (lookupField fields "applicant_types")).bind fun applicant_types =>
  (asOptStr (lookupField fields "funding_category")).bind fun funding_category =>
  (asOptStr (lookupField fields "funding_instrument")).bind fun funding_instrument =>
  some { award_ceiling, award_floor, estimated_total_program_funding,
         expected_number_of_awards, post_date, close_date, archive_date,
         summary_description, additional_info_url, agency_contact_description,
         agency_email_address, agency_phone_number,
         applicant_eligibility_description, applicant_types, funding_category,
         funding_instrument }

/-- Validation of `OpportunityV1(**item)`; `none` is a pydantic
`ValidationError` (what the `except` clause of `get_opportunities`
catches). -/
def parseOpportunityV1 (item : Record) : Option OpportunityV1 :=
  (asStr (lookupField item "opportunity_id")).bind fun opportunity_id =>
  (asStr (lookupField item "opportunity_number")).bind fun opportunity_number =>
  (asStr (lookupField item "opportunity_title")).bind fun opportunity_title =>
  (asStr (lookupField item "opportunity_status")).bind fun opportunity_status =>
  (asStr (lookupField item "agency")).bind fun agency =>
  (asStr (lookupField item "agency_code")).bind fun agency_code =>
  (asStr (lookupField item "agency_name")).bind fun agency_name =>
  (match lookupField item "summary" with
    | some (JValue.jobj fields) => parseOpportunitySummary fields
    | _ => none).bind fun summary =>
  (asOptStr (lookupField item "category")).bind fun category =>
  (asOptStr (lookupField item "category_explanation")).bind fun category_explanation =>
  some { opportunity_id, opportunity_number, opportunity_title,
         opportunity_status, agency, agency_code, agency_name, summary,
         category, category_explanation }

/-- Validation of `AgencyV1(**item)`. -/
def parseAgencyV1 (item : Record) : Option AgencyV1 :=
  (asStr (lookupField item "agency_code")).bind fun agency_code =>
  (asStr (lookupField item "agency_name")).bind fun agency_name =>
  (asOptStr (lookupField item "sub_agency_code")).bind fun sub_agency_code =>
  (asOptStr (lookupField item "sub_agency_name")).bind fun sub_agency_name =>
  (asOptStr (lookupField item "top_level_agency_name")).bind fun top_level_agency_name =>
  some { agency_code, agency_name, sub_agency_code, sub_agency_name,
         top_level_agency_name }

/-- The loop of `GrantsAPIResponse.get_opportunities`: append each record
that validates, skip (log only) each record that raises. -/
def getOpportunitiesLoop : List Record → List OpportunityV1 → List OpportunityV1
  | [], acc => acc
  | item :: rest, acc =>
    match parseOpportunityV1 item with
    | some o => getOpportunitiesLoop rest (acc ++ [o])
    | none => getOpportunitiesLoop rest acc

/-- The `GrantsAPIResponse.get_opportunities` applied to the response's `data`. -/
def getOpportunities (data : List Record) : List OpportunityV1 :=
  getOpportunitiesLoop data []

/-- The loop of `GrantsAPIResponse.get_agencies`. -/
def getAgenciesLoop : List Record → List AgencyV1 → List AgencyV1
  | [], acc => acc
  | item :: rest, acc =>
    match parseAgencyV1 item with
    | some a => getAgenciesLoop rest (acc ++ [a])
    | none => getAgenciesLoop rest acc

/-- The `GrantsAPIResponse.get_agencies` applied to the response's `data`. -/
def getAgencies (data : List Record) : List AgencyV1 :=
  getAgenciesLoop data []

/-- The `PaginationInfo` model. -/
structure PaginationInfo where
  page_size : Int
  page_offset : Option Int
  page_number : Option Int
  total_records : Int
  total_pages : Option Int
deriving Repr, DecidableEq

/-- Python truthiness of an `Optional[int]`: `None` and `0` are falsy. -/
def intOptTruthy : Option Int → Bool
  | none => false
  | some n => n != 0

/-- The `PaginationInfo.get_page_number`:
`self.page_number or self.page_offset or 1` under Python `or` semantics. -/
def getPageNumber (p : PaginationInfo) : Int :=
  if intOptTruthy p.page_number then p.page_number.getD 0
  else if intOptTruthy p.page_offset then p.page_offset.getD 0
  else 1

/-- A well-formed opportunity record: all required fields in string form,
an (empty but present) summary object. -/
def goodOpportunity : Record :=
  [("opportunity_id", JValue.jstr "123456"),
   ("opportunity_number", JValue.jstr "TEST-2024-001"),
   ("opportunity_title", JValue.jstr "Test Grant"),
   ("opportunity_status", JValue.jstr "posted"),
   ("agency", JValue.jstr "TEST"),
   ("agency_code", JValue.jstr "TEST"),
   ("agency_name", JValue.jstr "Test Agency"),
   ("summary", JValue.jobj [])]

/-- A structurally invalid opportunity record (all other required fields
missing). -/
def badOpportunity : Record :=
  [("opportunity_id", JValue.jstr "999")]

/-- Like `goodOpportunity` but with its `opportunity_id` in integer form instead. -/
def intIdOpportunity : Record :=
  [("opportunity_id", JValue.jint 123456),
   ("opportunity_number", JValue.jstr "TEST-2024-001"),
   ("opportunity_title", JValue.jstr "Test Grant"),
   ("opportunity_status", JValue.jstr "posted"),
   ("agency", JValue.jstr "TEST"),
   ("agency_code", JValue.jstr "TEST"),
   ("agency_name", JValue.jstr "Test Agency"),
   ("summary", JValue.jobj [])]

/-- The parse of an empty summary object: every optional field `None`. -/
def emptySummary : OpportunitySummary :=
  { award_ceiling := none, award_floor := none,
    estimated_total_program_funding := none, expected_number_of_awards := none,
    post_date := none, close_date := none, archive_date := none,
    summary_description := none, additional_info_url := none,
    agency_contact_description := none, agency_email_address := none,
    agency_phone_number := none, applicant_eligibility_description := none,
    applicant_types := none, funding_category := none,
    funding_instrument := none }

/-- The parse of `goodOpportunity`. -/
def goodParsed : OpportunityV1 :=
  { opportunity_id := "123456", opportunity_number := "TEST-2024-001",
    opportunity_title := "Test Grant", opportunity_status := "posted",
    agency := "TEST", agency_code := "TEST", agency_name := "Test Agency",
    summary := emptySummary, category := none, category_explanation := none }

end Schemas

namespace Schemas

theorem getOpportunitiesLoop_eq_filterMap (data : List Record)
    (acc : List OpportunityV1) :
    getOpportunitiesLoop data acc = acc ++ data.filterMap parseOpportunityV1 := by
  induction data generalizing acc with
  | nil => simp [getOpportunitiesLoop]
  | cons item rest ih =>
    cases h : parseOpportunityV1 item with
    | some o =>
      simp only [getOpportunitiesLoop, h]
      rw [ih, List.filterMap_cons_some h, List.append_assoc]
      rfl
    | none =>
      simp only [getOpportunitiesLoop, h]
      rw [ih, List.filterMap_cons_none h]

theorem getAgenciesLoop_eq_filterMap (data : List Record) (acc : List AgencyV1) :
    getAgenciesLoop data acc = acc ++ data.filterMap parseAgencyV1 := by
  induction data generalizing acc with
  | nil => simp [getAgenciesLoop]
  | cons item rest ih =>
    cases h : parseAgencyV1 item with
    | some a =>
      simp only [getAgenciesLoop, h]
      rw [ih, List.filterMap_cons_some h, List.append_assoc]
      rfl
    | none =>
      simp only [getAgenciesLoop, h]
      rw [ih, List.filterMap_cons_none h]

/-- Claim C4: `get_opportunities` returns exactly the parsed forms of the
records that validate, in order, skipping each record that fails to parse
(it never raises: failure of one record only omits that record); in
particular one well-formed plus one invalid record yields exactly the one
parsed record. The same holds for `get_agencies`. -/
theorem get_opportunities_skips_invalid :
    (∀ data : List Record, getOpportunities data = data.filterMap parseOpportunityV1)
    ∧ (∀ (good bad : Record) (o : OpportunityV1),
        parseOpportunityV1 good = some o → parseOpportunityV1 bad = none →
        getOpportunities [good, bad] = [o]
        ∧ getOpportunities [bad, good] = [o])
    ∧ (∀ data : List Record, getAgencies data = data.filterMap parseAgencyV1) := by
  refine ⟨?_, ?_, ?_⟩
  · intro data
    rw [getOpportunities, getOpportunitiesLoop_eq_filterMap, List.nil_append]
  · intro good bad o hg hb
    constructor
    · rw [getOpportunities, getOpportunitiesLoop_eq_filterMap, List.nil_append,
        List.filterMap_cons_some hg, List.filterMap_cons_none hb,
        List.filterMap_nil]
    · rw [getOpportunities, getOpportunitiesLoop_eq_filterMap, List.nil_append,
        List.filterMap_cons_none hb, List.filterMap_cons_some hg,
        List.filterMap_nil]
  · intro data
    rw [getAgencies, getAgenciesLoop_eq_filterMap, List.nil_append]

/-- Witness for C4 at a concrete input: one well-formed and one invalid
record yield exactly the one parsed record. -/
theorem get_opportunities_skips_invalid_witness :
    getOpportunities [goodOpportunity, badOpportunity] = [goodParsed]
    ∧ getOpportunities [badOpportunity, goodOpportunity] = [goodParsed] :=
  get_opportunities_skips_invalid.2.1 goodOpportunity badOpportunity goodParsed rfl rfl

/-- Claim C6, counterexample: A record differing from a well-formed one only by
carrying its opportunity id in integer form fails `OpportunityV1`
validation (pydantic v2 does not coerce `int` to `str`) and is skipped by
`get_opportunities` — it is not normalized to the decimal string "123456". -/
theorem opportunity_int_id_counterexample :
    parseOpportunityV1 goodOpportunity = some goodParsed
    ∧ parseOpportunityV1 intIdOpportunity = none
    ∧ getOpportunities [intIdOpportunity] = [] :=
  ⟨rfl, rfl, rfl⟩

/-- Claim C6, amended: An upstream record whose opportunity id is in integer
form is rejected by `OpportunityV1` validation (and hence skipped by
`get_opportunities`), not normalized; ids are accepted only when already in
string form (UUID or decimal strings included), and a successful parse
carries the id through verbatim. -/
theorem opportunity_id_not_coerced (item : Record) :
    (∀ n : Int, lookupField item "opportunity_id" = some (JValue.jint n) →
      parseOpportunityV1 item = none ∧ getOpportunities [item] = [])
    ∧ (∀ o : OpportunityV1, parseOpportunityV1 item = some o →
      lookupField item "opportunity_id" = some (JValue.jstr o.opportunity_id)) := by
  constructor
  · intro n h
    have hnone : parseOpportunityV1 item = none := by
      rw [parseOpportunityV1, h]
      rfl
    exact ⟨hnone, by rw [getOpportunities, getOpportunitiesLoop, hnone, getOpportunitiesLoop]⟩
  · intro o hp
    rw [parseOpportunityV1] at hp
    rw [Option.bind_eq_some] at hp
    obtain ⟨oid, hid, hp⟩ := hp
    rw [Option.bind_eq_some] at hp
    obtain ⟨onum, _, hp⟩ := hp
    rw [Option.bind_eq_some] at hp
    obtain ⟨otitle, _, hp⟩ := hp
    rw [Option.bind_eq_some] at hp
    obtain ⟨ostatus, _, hp⟩ := hp
    rw [Option.bind_eq_some] at hp
    obtain ⟨oagency, _, hp⟩ := hp
    rw [Option.bind_eq_some] at hp
    obtain ⟨ocode, _, hp⟩ := hp
    rw [Option.bind_eq_some] at hp
    obtain ⟨oname, _, hp⟩ := hp
    rw [Option.bind_eq_some] at hp
    obtain ⟨osum, _, hp⟩ := hp
    rw [Option.bind_eq_some] at hp
    obtain ⟨ocat, _, hp⟩ := hp
    rw [Option.bind_eq_some] at hp
    obtain ⟨ocate, _, hp⟩ := hp
    have ho : o.opportunity_id = oid := by
      cases hp
      rfl
    rw [ho]
    unfold asStr at hid
    split at hid
    · cases hid
      assumption
    · cases hid

/-- Witness for the amended C6 at concrete inputs: the integer-id record is
rejected and skipped; the string-id record's id comes through verbatim. -/
theorem opportunity_id_not_coerced_witness :
    (parseOpportunityV1 intIdOpportunity = none
      ∧ getOpportunities [intIdOpportunity] = [])
    ∧ lookupField goodOpportunity "opportunity_id"
        = some (JValue.jstr goodParsed.opportunity_id) :=
  ⟨(opportunity_id_not_coerced intIdOpportunity).1 123456 rfl,
   (opportunity_id_not_coerced goodOpportunity).2 goodParsed rfl⟩

/-- Claim C9: `get_page_number` returns the first Python-truthy value among
`page_number`, `page_offset` and the constant 1: a truthy (nonzero, present)
`page_number` wins, else a truthy `page_offset`, else 1. Consequently it
never returns 0, and a record with `page_number = 0` is indistinguishable
from one with `page_number` absent. -/
theorem get_page_number_first_truthy (p : PaginationInfo) :
    (∀ n : Int, p.page_number = some n → n ≠ 0 → getPageNumber p = n)
    ∧ ((p.page_number = none ∨ p.page_number = some 0) →
        ∀ m : Int, p.page_offset = some m → m ≠ 0 → getPageNumber p = m)
    ∧ ((p.page_number = none ∨ p.page_number = some 0) →
        (p.page_offset = none ∨ p.page_offset = some 0) → getPageNumber p = 1)
    ∧ getPageNumber p ≠ 0
    ∧ getPageNumber { p with page_number := some 0 }
        = getPageNumber { p with page_number := none } := by
  obtain ⟨ps, po, pn, tr, tp⟩ := p
  refine ⟨?_, ?_, ?_, ?_, ?_⟩
  · intro n hn hnz
    simp only at hn
    subst hn
    simp [getPageNumber, intOptTruthy, hnz]
  · intro hpn m hm hmz
    simp only at hpn hm
    subst hm
    rcases hpn with h | h <;> subst h <;>
      simp [getPageNumber, intOptTruthy, hmz]
  · intro hpn hpo
    rcases hpn with h | h <;> rcases hpo with h2 | h2 <;>
      (simp only at h h2; subst h; subst h2; simp [getPageNumber, intOptTruthy])
  · unfold getPageNumber
    split
    · rename_i htr
      cases pn with
      | none => simp [intOptTruthy] at htr
      | some n =>
        simp only [Option.getD_some]
        simpa [intOptTruthy] using htr
    · split
      · rename_i htr
        cases po with
        | none => simp [intOptTruthy] at htr
        | some m =>
          simp only [Option.getD_some]
          simpa [intOptTruthy] using htr
      · norm_num
  · simp [getPageNumber, intOptTruthy]

/-- A pagination record whose explicit page number is 0 and whose offset
is 3. -/
def paginationSample : PaginationInfo :=
  { page_size := 25
    page_offset := some 3
    page_number := some 0
    total_records := 100
    total_pages := none }

/-- Witness for C9 at a concrete input: `page_number = 0` falls back to the
`page_offset` of 3. -/
theorem get_page_number_first_truthy_witness :
    getPageNumber paginationSample = 3 :=
  (get_page_number_first_truthy paginationSample).2.1 (Or.inr rfl) 3 rfl (by decide)

end Schemas
